import Mathlib

/-!
Verification of the LLM-response recovery pipeline of the IntHR repository
(`ATS Final`): the JSON cleaning / repair chains of `JobMatchingAgent`,
`DecisionFeedbackAgent` and `ResumeParsingAgent`, the pydantic models with
their clamping validators, and the default records used as fallbacks.

Text is modelled as `List Char`.  Python's `json.loads` is embedded as a
recursive-descent parser mirroring CPython's `json/decoder.py` (same error
kinds and same error positions, reported as `line`/`column` the way
CPython formats them).  The regex-based text surgeries of the agents are
embedded as equivalent character scans.  Python exceptions are modelled
with `Except`: an operation that can raise returns `Except PyErr α`, and
`try/except` blocks of the source become explicit matches.
-/

deriving instance DecidableEq for Except

namespace IntHR

abbrev Chars := List Char

/-- The double-quote character. -/
def quoteChar : Char := Char.ofNat 34

/-- The single-quote (apostrophe) character. -/
def aposChar : Char := Char.ofNat 39

/-- Python `str` whitespace (the characters stripped by `str.strip()` and
matched by the regex class `\s` on ASCII text): space, tab, newline,
carriage return, vertical tab, form feed. -/
def isPyWs (c : Char) : Bool :=
  c = ' ' || c = '\t' || c = '\n' || c = '\x0d' || c = '\x0b' || c = '\x0c'

/-- JSON whitespace as in CPython's `json` module (`WHITESPACE_STR`). -/
def isJsonWs (c : Char) : Bool :=
  c = ' ' || c = '\t' || c = '\n' || c = '\x0d'

/-- The regex class `\w` on ASCII text: letters, digits, underscore. -/
def isWordChar (c : Char) : Bool :=
  c.isAlpha || c.isDigit || c = '_'

/-- Longest prefix of characters satisfying `p`, with the remainder. -/
def spanP (p : Char → Bool) : Chars → Chars × Chars
  | [] => ([], [])
  | c :: r =>
      if p c then
        let (a, b) := spanP p r
        (c :: a, b)
      else ([], c :: r)

/-- Python `str.lstrip()` (default whitespace). -/
def pyLstrip : Chars → Chars
  | [] => []
  | c :: r => if isPyWs c then pyLstrip r else c :: r

/-- Python `str.rstrip()` (default whitespace). -/
def pyRstrip (s : Chars) : Chars :=
  (pyLstrip s.reverse).reverse

/-- Python `str.strip()` (default whitespace). -/
def pyStrip (s : Chars) : Chars :=
  pyRstrip (pyLstrip s)

/-- Python `s.split('\n')`: split at every newline, keeping empty pieces. -/
def splitNl : Chars → List Chars
  | [] => [[]]
  | c :: r =>
      let rest := splitNl r
      if c = '\n' then [] :: rest
      else
        match rest with
        | [] => [[c]]
        | l :: ls => (c :: l) :: ls

/-- Python `'\n'.join(lines)`. -/
def joinNl : List Chars → Chars
  | [] => []
  | [l] => l
  | l :: ls => l ++ '\n' :: joinNl ls

/-- Python `s.replace(a, b)` for single characters. -/
def replaceChar (a b : Char) (s : Chars) : Chars :=
  s.map fun c => if c = a then b else c

/-- Python `s.replace(old, new)` for a nonempty `old`: replace all
non-overlapping occurrences, scanning left to right.  Fuel-driven scan;
the wrapper supplies enough fuel. -/
def strReplaceAux (old new : Chars) : Nat → Chars → Chars
  | 0, s => s
  | _, [] => []
  | fuel + 1, c :: r =>
      if old ≠ [] ∧ old.isPrefixOf (c :: r) then
        new ++ strReplaceAux old new fuel (List.drop (old.length - 1) r)
      else
        c :: strReplaceAux old new fuel r

def strReplace (s old new : Chars) : Chars :=
  strReplaceAux old new (s.length + 1) s

/-- Python `s.startswith(p)` for a literal prefix. -/
def pyStartswith (p s : Chars) : Bool := p.isPrefixOf s

/-- Python `s.endswith(p)` for a literal suffix. -/
def pyEndswith (p s : Chars) : Bool := p.isSuffixOf s

/-- Python `sub in s` (substring containment). -/
def containsSub (sub : Chars) : Chars → Bool
  | [] => sub.isPrefixOf []
  | c :: r => sub.isPrefixOf (c :: r) || containsSub sub r

/-- Python `ch in s` for a single character. -/
def containsChar (a : Char) (s : Chars) : Bool := s.contains a

/-- Number of occurrences of a character. -/
def countChar (a : Char) (s : Chars) : Nat := s.count a

/-- Insert a character at 0-based index `i` (Python `s[:i] + ch + s[i:]`). -/
def insertAt (s : Chars) (i : Nat) (ch : Char) : Chars :=
  s.take i ++ ch :: s.drop i

/-! ## JSON values and the embedded `json.loads`

The parser mirrors CPython's `json/decoder.py` (py_make_scanner /
py_scanstring): same grammar, same error kinds, and the same 0-based
character position carried by `json.JSONDecodeError.pos`.  CPython
formats the position into the message as
`line {count of newlines before pos + 1} column {pos - rfind-newline}`;
`lineColOf` reproduces that computation. -/

inductive Json where
  | null : Json
  | bool (b : Bool) : Json
  | num (q : ℚ) : Json
  | str (s : Chars) : Json
  | arr (xs : List Json) : Json
  | obj (kvs : List (Chars × Json)) : Json

/-- CPython's `JSONDecodeError` messages, as kinds.  The agents only ever
test the message with `in` (substring containment), so the kind carries
the same information. -/
inductive ErrKind where
  | expectingValue
  | expectingPropName
  | expectingColon
  | expectingComma
  | unterminatedString
  | invalidControl
  | invalidEscape
  | extraData
deriving DecidableEq

structure JsonError where
  kind : ErrKind
  pos : Nat
deriving DecidableEq

/-- `(lineno, colno)` of a 0-based position, exactly as CPython computes
them for the error message: `lineno = doc.count('\n', 0, pos) + 1`,
`colno = pos - doc.rfind('\n', 0, pos)` (which is `pos + 1` when there is
no newline before `pos`). -/
def lineColOf (s : Chars) (pos : Nat) : Nat × Nat :=
  let pre := s.take pos
  let line := pre.count '\n' + 1
  let col :=
    match pre.reverse.findIdx? (· = '\n') with
    | some k => k + 1
    | none => pos + 1
  (line, col)

/-- Skip JSON whitespace, advancing the absolute position. -/
def skipJsonWs : Chars → Nat → Chars × Nat
  | [], p => ([], p)
  | c :: r, p => if isJsonWs c then skipJsonWs r (p + 1) else (c :: r, p)

/-- Escape table of `py_scanstring` (the `BACKSLASH` dict). -/
def escMap (c : Char) : Option Char :=
  if c = quoteChar then some quoteChar
  else if c = '\\' then some '\\'
  else if c = '/' then some '/'
  else if c = 'b' then some '\x08'
  else if c = 'f' then some '\x0c'
  else if c = 'n' then some '\n'
  else if c = 'r' then some '\x0d'
  else if c = 't' then some '\t'
  else none

def hexVal (c : Char) : Option Nat :=
  if c.isDigit then some (c.toNat - 48)
  else if 'a' ≤ c ∧ c ≤ 'f' then some (c.toNat - 87)
  else if 'A' ≤ c ∧ c ≤ 'F' then some (c.toNat - 55)
  else none

/-- `py_scanstring` after the opening quote: `s` is the rest of the input,
`p` the absolute position of its head, `b` the position of the opening
quote (used for `Unterminated string starting at`).  Returns the decoded
content, the remaining input and the position after the closing quote. -/
def scanString : Chars → Nat → Nat → Except JsonError (Chars × Chars × Nat)
  | [], _, b => .error ⟨.unterminatedString, b⟩
  | c :: r, p, b =>
      if c = quoteChar then .ok ([], r, p + 1)
      else if c = '\\' then
        match r with
        | [] => .error ⟨.unterminatedString, b⟩
        | e :: r2 =>
            if e = 'u' then
              match r2 with
              | h1 :: h2 :: h3 :: h4 :: r3 =>
                  match hexVal h1, hexVal h2, hexVal h3, hexVal h4 with
                  | some a, some b2, some c2, some d => do
                      let (cs, rest, p2) ← scanString r3 (p + 6) b
                      .ok (Char.ofNat (((a * 16 + b2) * 16 + c2) * 16 + d) :: cs, rest, p2)
                  | _, _, _, _ => .error ⟨.invalidEscape, p + 1⟩
              | _ => .error ⟨.invalidEscape, p + 1⟩
            else
              match escMap e with
              | some ch => do
                  let (cs, rest, p2) ← scanString r2 (p + 2) b
                  .ok (ch :: cs, rest, p2)
              | none => .error ⟨.invalidEscape, p + 1⟩
      else if c.toNat < 32 then .error ⟨.invalidControl, p⟩
      else do
        let (cs, rest, p2) ← scanString r (p + 1) b
        .ok (c :: cs, rest, p2)

/-- 10^z over ℚ for an integer exponent. -/
def tenPow (z : Int) : ℚ :=
  if 0 ≤ z then (10 : ℚ) ^ z.toNat else ((10 : ℚ) ^ (-z).toNat)⁻¹

def digitsToNat (ds : Chars) : Nat :=
  ds.foldl (fun a c => a * 10 + (c.toNat - 48)) 0

/-- CPython's `NUMBER_RE`:
`(-?(?:0|[1-9]\d*))(\.\d+)?([eE][-+]?\d+)?`, anchored at the current
position.  Returns the value, the rest and the new position, or `none`
when the regex does not match at all. -/
def scanNumber (s : Chars) (p : Nat) : Option (ℚ × Chars × Nat) :=
  let (neg, s1, p1) :=
    match s with
    | c :: r => if c = '-' then (true, r, p + 1) else (false, s, p)
    | [] => (false, s, p)
  match s1 with
  | [] => none
  | c :: r =>
      if ¬ c.isDigit then none
      else
        let (intDs, s2, p2) :=
          if c = '0' then (['0'], r, p1 + 1)
          else
            let (ds, rest) := spanP Char.isDigit (c :: r)
            (ds, rest, p1 + ds.length)
        let (fracDs, s3, p3) :=
          match s2 with
          | '.' :: d :: r2 =>
              if d.isDigit then
                let (ds, rest) := spanP Char.isDigit (d :: r2)
                (ds, rest, p2 + 1 + ds.length)
              else ([], s2, p2)
          | _ => ([], s2, p2)
        let (expVal, s4, p4) :=
          match s3 with
          | e :: r2 =>
              if e = 'e' ∨ e = 'E' then
                let (esign, r3, k) :=
                  match r2 with
                  | sc :: r4 =>
                      if sc = '-' then (true, r4, 2)
                      else if sc = '+' then (false, r4, 2)
                      else (false, r2, 1)
                  | [] => (false, r2, 1)
                match r3 with
                | d :: _ =>
                    if d.isDigit then
                      let (ds, rest) := spanP Char.isDigit r3
                      (((if esign then -1 else 1) * (digitsToNat ds : Int)),
                        rest, p3 + k + ds.length)
                    else ((0 : Int), s3, p3)
                | [] => ((0 : Int), s3, p3)
              else ((0 : Int), s3, p3)
          | [] => ((0 : Int), s3, p3)
        let mantissa : Int := (digitsToNat (intDs ++ fracDs) : Int)
        let q : ℚ := (if neg then -mantissa else mantissa) *
          tenPow (expVal - (fracDs.length : Int))
        some (q, s4, p4)

/-- The state of the recursive-descent scanner: which production is
being parsed (a single fuelled function keeps the recursion structural,
so that proofs can evaluate it). -/
inductive PTask where
  | value : PTask
  | object : PTask
  | pair (acc : List (Chars × Json)) (key : Chars) : PTask
  | array : PTask
  | items (acc : List Json) : PTask

/-- The python scanner (`py_make_scanner`): `.value` is `scan_once` at
absolute position `p` on the remaining input `s` (a failure to start a
value is `Expecting value` at `p`); `.object` / `.array` enter after the
opening bracket; `.pair` / `.items` loop over members, accumulating in
source order (later duplicate keys are resolved by lookup). -/
def parseStep : Nat → PTask → Chars → Nat → Except JsonError (Json × Chars × Nat)
  | 0, _, _, p => .error ⟨.expectingValue, p⟩
  | fuel + 1, .value, s, p =>
      (match s with
      | [] => .error ⟨.expectingValue, p⟩
      | c :: r =>
          if c = quoteChar then do
            let (cs, rest, p2) ← scanString r (p + 1) p
            .ok (.str cs, rest, p2)
          else if c = '{' then parseStep fuel .object r (p + 1)
          else if c = '[' then parseStep fuel .array r (p + 1)
          else if "null".data.isPrefixOf s then .ok (.null, s.drop 4, p + 4)
          else if "true".data.isPrefixOf s then .ok (.bool true, s.drop 4, p + 4)
          else if "false".data.isPrefixOf s then .ok (.bool false, s.drop 5, p + 5)
          else
            match scanNumber s p with
            | some (q, rest, p2) => .ok (.num q, rest, p2)
            | none => .error ⟨.expectingValue, p⟩)
  | fuel + 1, .object, s, p =>
      (let (s1, p1) := skipJsonWs s p
      match s1 with
      | [] => .error ⟨.expectingPropName, p1⟩
      | c :: r =>
          if c = '}' then .ok (.obj [], r, p1 + 1)
          else if c = quoteChar then do
            let (key, s2, p2) ← scanString r (p1 + 1) p1
            parseStep fuel (.pair [] key) s2 p2
          else .error ⟨.expectingPropName, p1⟩)
  | fuel + 1, .pair acc key, s, p =>
      -- expect ':' (whitespace allowed before it), then a value, then
      -- `, | }`
      (let (s1, p1) := skipJsonWs s p
      match s1 with
      | ':' :: r =>
          let (s2, p2) := skipJsonWs r (p1 + 1)
          match parseStep fuel .value s2 p2 with
          | .error e => .error e
          | .ok (v, s3, p3) =>
              let acc2 := acc ++ [(key, v)]
              let (s4, p4) := skipJsonWs s3 p3
              match s4 with
              | [] => .error ⟨.expectingComma, p4⟩
              | '}' :: r2 => .ok (.obj acc2, r2, p4 + 1)
              | ',' :: r2 =>
                  let (s5, p5) := skipJsonWs r2 (p4 + 1)
                  match s5 with
                  | c :: r3 =>
                      if c = quoteChar then
                        match scanString r3 (p5 + 1) p5 with
                        | .error e => .error e
                        | .ok (key2, s6, p6) => parseStep fuel (.pair acc2 key2) s6 p6
                      else .error ⟨.expectingPropName, p5⟩
                  | [] => .error ⟨.expectingPropName, p5⟩
              | _ => .error ⟨.expectingComma, p4⟩
      | _ => .error ⟨.expectingColon, p1⟩)
  | fuel + 1, .array, s, p =>
      (let (s1, p1) := skipJsonWs s p
      match s1 with
      | ']' :: r => .ok (.arr [], r, p1 + 1)
      | _ => parseStep fuel (.items []) s1 p1)
  | fuel + 1, .items acc, s, p =>
      (match parseStep fuel .value s p with
      | .error e => .error e
      | .ok (v, s1, p1) =>
          let acc2 := acc ++ [v]
          let (s2, p2) := skipJsonWs s1 p1
          match s2 with
          | [] => .error ⟨.expectingComma, p2⟩
          | ']' :: r => .ok (.arr acc2, r, p2 + 1)
          | ',' :: r =>
              let (s3, p3) := skipJsonWs r (p2 + 1)
              parseStep fuel (.items acc2) s3 p3
          | _ => .error ⟨.expectingComma, p2⟩)

/-- `scan_once`: parse one value. -/
def parseValue (fuel : Nat) (s : Chars) (p : Nat) :
    Except JsonError (Json × Chars × Nat) :=
  parseStep fuel .value s p

/-- Python `json.loads`: skip leading whitespace, parse one value, skip
trailing whitespace, and reject `Extra data`. -/
def jsonLoads (s : Chars) : Except JsonError Json :=
  let (s1, p1) := skipJsonWs s 0
  match parseValue (s.length + 2) s1 p1 with
  | .error e => .error e
  | .ok (j, rest, p2) =>
      let (s3, p3) := skipJsonWs rest p2
      match s3 with
      | [] => .ok j
      | _ => .error ⟨.extraData, p3⟩

/-- `True` when `json.loads` succeeds. -/
def jsonValid (s : Chars) : Bool := (jsonLoads s).toBool

/-! ## The regex transforms of the agents

Every `re.sub` / `re.search` of the agents is embedded as an equivalent
left-to-right scan: a matcher tries the pattern at the current position;
`re.sub` semantics (leftmost, non-overlapping, continue after the match)
are given by `scanSub`, `re.search` by `reSearch`.  Each matcher consumes
at least one character on success, so fuel `length + 1` is exact. -/

/-- Non-overlapping leftmost substitution, as `re.sub`. -/
def scanSub (m : Chars → Option (Chars × Chars)) : Nat → Chars → Chars
  | 0, s => s
  | _ + 1, [] => []
  | f + 1, c :: r =>
      match m (c :: r) with
      | some (repl, rest) => repl ++ scanSub m f rest
      | none => c :: scanSub m f r

def runSub (m : Chars → Option (Chars × Chars)) (s : Chars) : Chars :=
  scanSub m (s.length + 1) s

/-- Leftmost search, as `re.search`. -/
def reSearch {α : Type} (m : Chars → Option α) : Chars → Option α
  | [] => m []
  | c :: r =>
      match m (c :: r) with
      | some x => some x
      | none => reSearch m r

/-- Matcher of `([{,]\s*)(\w+)(\s*:)` with replacement `\1"\2"\3`
(quote bare object keys). -/
def quoteKeysAt : Chars → Option (Chars × Chars)
  | [] => none
  | c :: r =>
      if c = '{' ∨ c = ',' then
        let (w1, r1) := spanP isPyWs r
        let (word, r2) := spanP isWordChar r1
        if word = [] then none
        else
          let (w2, r3) := spanP isPyWs r2
          match r3 with
          | ':' :: r4 =>
              some (c :: w1 ++ quoteChar :: word ++ quoteChar :: w2 ++ [':'], r4)
          | _ => none
      else none

/-- `re.sub(r'([{,]\s*)(\w+)(\s*:)', r'\1"\2"\3', s)`. -/
def subQuoteKeys (s : Chars) : Chars := runSub quoteKeysAt s

/-- `s.replace("'", '"')`. -/
def replaceSingleQuotes (s : Chars) : Chars := replaceChar aposChar quoteChar s

/-- Matcher of `"(\s*)\n(\s*)"` with the literal replacement `",\n"`:
a quote, a whitespace run containing a newline, a quote. -/
def missingCommaAt : Chars → Option (Chars × Chars)
  | [] => none
  | c :: r =>
      if c = quoteChar then
        let (run, r1) := spanP isPyWs r
        if run.contains '\n' then
          match r1 with
          | d :: r2 =>
              if d = quoteChar then some ([quoteChar, ',', '\n', quoteChar], r2)
              else none
          | [] => none
        else none
      else none

/-- `re.sub(r'"(\s*)\n(\s*)"', '",\n"', s)`. -/
def subMissingCommas (s : Chars) : Chars := runSub missingCommaAt s

/-- Matcher of `,(\s*[}\]])` with replacement `\1` (drop trailing commas). -/
def trailingCommaAt : Chars → Option (Chars × Chars)
  | [] => none
  | c :: r =>
      if c = ',' then
        let (run, r1) := spanP isPyWs r
        match r1 with
        | d :: r2 => if d = '}' ∨ d = ']' then some (run ++ [d], r2) else none
        | [] => none
      else none

/-- `re.sub(r',(\s*[}\]])', r'\1', s)`. -/
def subTrailingCommas (s : Chars) : Chars := runSub trailingCommaAt s

/-- Matcher of `(\s*)(\w+)(\s*:)` (no anchor on `[{,]`) with replacement
`\1"\2"\3`, used line-wise by the decision agent's structural pass. -/
def wordColonAt (s : Chars) : Option (Chars × Chars) :=
  let (w1, s1) := spanP isPyWs s
  let (word, s2) := spanP isWordChar s1
  if word = [] then none
  else
    let (w2, s3) := spanP isPyWs s2
    match s3 with
    | ':' :: r => some (w1 ++ quoteChar :: word ++ quoteChar :: w2 ++ [':'], r)
    | _ => none

/-- Matcher of `("\s*)\n(\s*")` with replacement `\1,\n\2`: the comma is
inserted before the last newline of the whitespace run, groups kept. -/
def quoteNlQuoteAt : Chars → Option (Chars × Chars)
  | [] => none
  | c :: r =>
      if c = quoteChar then
        let (run, r1) := spanP isPyWs r
        match run.reverse.findIdx? (· = '\n') with
        | some k =>
            let last := run.length - 1 - k
            match r1 with
            | d :: r2 =>
                if d = quoteChar then
                  some (quoteChar :: run.take last ++ ',' :: '\n' ::
                    run.drop (last + 1) ++ [quoteChar], r2)
                else none
            | [] => none
        | none => none
      else none

/-- `re.search(r'({[\s\S]*})', s)`: keep the span from the first `{` to
the last `}` when the latter comes after the former, else `s` unchanged
(the agents assign `cleaned_text = match.group(1)` only `if match`). -/
def extractBraceSpan (s : Chars) : Chars :=
  match s.findIdx? (· = '{'), s.reverse.findIdx? (· = '}') with
  | some i, some k =>
      let j := s.length - 1 - k
      if i < j then (s.drop i).take (j - i + 1) else s
  | _, _ => s

/-- Markdown fence stripping shared by both agents: drop a leading
```` ```json ```` (7 chars) or ```` ``` ```` (3 chars), then a trailing
```` ``` ````. -/
def stripCodeFences (s : Chars) : Chars :=
  let s1 :=
    if pyStartswith ("```json").data s then s.drop 7
    else if pyStartswith ("```").data s then s.drop 3
    else s
  if pyEndswith ("```").data s1 then s1.take (s1.length - 3) else s1

/-! ### Score-pattern searches (`re.search` with `(\d+)` captures) -/

def matchLit (lit s : Chars) : Option Chars :=
  if lit.isPrefixOf s then some (s.drop lit.length) else none

def matchDigits (s : Chars) : Option Nat :=
  let (ds, _) := spanP Char.isDigit s
  if ds = [] then none else some (digitsToNat ds)

/-- Matcher of `"NAME"\s*:\s*(\d+)` at the current position. -/
def scoreKeyAt (name : Chars) (s : Chars) : Option Nat := do
  let s1 ← matchLit (quoteChar :: name ++ [quoteChar]) s
  let s2 := (spanP isPyWs s1).2
  let s3 ← matchLit [':'] s2
  let s4 := (spanP isPyWs s3).2
  matchDigits s4

/-- Matcher of `"NAME"\s*:\s*{\s*"score"\s*:\s*(\d+)` at the current
position. -/
def nestedScoreAt (name : Chars) (s : Chars) : Option Nat := do
  let s1 ← matchLit (quoteChar :: name ++ [quoteChar]) s
  let s2 := (spanP isPyWs s1).2
  let s3 ← matchLit [':'] s2
  let s4 := (spanP isPyWs s3).2
  let s5 ← matchLit ['{'] s4
  let s6 := (spanP isPyWs s5).2
  let s7 ← matchLit (quoteChar :: ("score").data ++ [quoteChar]) s6
  let s8 := (spanP isPyWs s7).2
  let s9 ← matchLit [':'] s8
  let s10 := (spanP isPyWs s9).2
  matchDigits s10

/-- `re.search(r'"match_score"\s*:\s*(\d+)', s)`, digits as `int`. -/
def searchMatchScore (s : Chars) : Option Nat :=
  reSearch (scoreKeyAt ("match_score").data) s

/-- `re.search(r'"NAME"\s*:\s*{\s*"score"\s*:\s*(\d+)', s)`. -/
def searchNestedScore (name : String) (s : Chars) : Option Nat :=
  reSearch (nestedScoreAt name.data) s

/-- `re.search(r'"match_score":\s*(\d+)', s)` — the variant used inside
`_transform_api_response` (no whitespace allowed before the colon). -/
def searchMatchScoreTight (s : Chars) : Option Nat :=
  reSearch (fun t => do
    let s1 ← matchLit ((quoteChar :: ("match_score").data ++ [quoteChar]) ++ [':']) t
    let s2 := (spanP isPyWs s1).2
    matchDigits s2) s

/-- Matcher of `("hiring_manager_notes"\s*:\s*{[^}]*})`, returning the
matched substring. -/
def hiringNotesAt (s : Chars) : Option Chars := do
  let lit := quoteChar :: ("hiring_manager_notes").data ++ [quoteChar]
  let r1 ← matchLit lit s
  let (w1, r2) := spanP isPyWs r1
  let r3 ← matchLit [':'] r2
  let (w2, r4) := spanP isPyWs r3
  let r5 ← matchLit ['{'] r4
  let (body, r6) := spanP (· ≠ '}') r5
  let _ ← matchLit ['}'] r6
  pure (lit ++ w1 ++ ':' :: w2 ++ '{' :: body ++ ['}'])

/-! ## `json.dumps` (default options: `ensure_ascii`, separators
`", "` and `": "`) -/

def hexDigit (n : Nat) : Char :=
  if n < 10 then Char.ofNat (48 + n) else Char.ofNat (87 + (n - 10))

def uEscape (n : Nat) : Chars :=
  ['\\', 'u', hexDigit (n / 4096 % 16), hexDigit (n / 256 % 16),
    hexDigit (n / 16 % 16), hexDigit (n % 16)]

/-- `ESCAPE_DCT` of `json/encoder.py`, plus `\uXXXX` for other control
and non-ASCII characters (with surrogate pairs above `0xFFFF`). -/
def escapeJsonChar (c : Char) : Chars :=
  if c = quoteChar then ['\\', quoteChar]
  else if c = '\\' then ['\\', '\\']
  else if c = '\n' then ['\\', 'n']
  else if c = '\t' then ['\\', 't']
  else if c = '\x0d' then ['\\', 'r']
  else if c = '\x08' then ['\\', 'b']
  else if c = '\x0c' then ['\\', 'f']
  else if c.toNat < 32 then uEscape c.toNat
  else if c.toNat < 127 then [c]
  else if c.toNat ≤ 65535 then uEscape c.toNat
  else
    uEscape (55296 + (c.toNat - 65536) / 1024) ++
      uEscape (56320 + (c.toNat - 65536) % 1024)

def dumpsStr (s : Chars) : Chars :=
  quoteChar :: (s.flatMap escapeJsonChar) ++ [quoteChar]

/-- Integral rationals print like python ints, which is the only case the
source ever dumps (every number in `minimal_json` / `default_json` /
`fallback_json` is an int literal); other rationals get a `num/den`
rendering that never occurs. -/
def dumpsNum (q : ℚ) : Chars :=
  if q.den = 1 then (toString q.num).data
  else (toString q.num).data ++ '/' :: (toString (q.den : Int)).data

def dumpsJson : Nat → Json → Chars
  | 0, _ => []
  | _ + 1, .null => ("null").data
  | _ + 1, .bool b => (if b then "true" else "false").data
  | _ + 1, .num q => dumpsNum q
  | _ + 1, .str s => dumpsStr s
  | f + 1, .arr xs =>
      '[' :: (List.intercalate (", ").data (xs.map (dumpsJson f))) ++ [']']
  | f + 1, .obj kvs =>
      '{' :: (List.intercalate (", ").data
        (kvs.map fun kv => dumpsStr kv.1 ++ ':' :: ' ' :: dumpsJson f kv.2)) ++ ['}']

/-- `json.dumps` (the dumped records of the source have depth below 100,
so the fuel is exact on every reachable input). -/
def jsonDumps (j : Json) : Chars := dumpsJson 100 j

/-! ## Python-dict helpers on parsed JSON -/

/-- `d[k]` / `d.get(k)` on a parsed JSON object: python dicts keep the
last of duplicate keys. -/
def jGet (kvs : List (Chars × Json)) (k : Chars) : Option Json :=
  (kvs.reverse.find? (fun kv => kv.1 = k)).map (·.2)

def jGetD (kvs : List (Chars × Json)) (k : Chars) (d : Json) : Json :=
  (jGet kvs k).getD d

def jHasKey (kvs : List (Chars × Json)) (k : Chars) : Bool :=
  (jGet kvs k).isSome

/-- Shorthand for string literals as `Chars`. -/
def S (s : String) : Chars := s.data

/-! ## Python exceptions

Operations that can raise return `Except PyErr α`; `try`/`except` blocks
of the source become explicit matches on the error constructor, so the
distinction between `json.JSONDecodeError`, `pydantic.ValidationError`,
`TypeError`, `ValueError` and errors raised by the OpenRouter client is
preserved (each source handler catches exactly the kinds it names). -/

structure ApiErr where
  msg : Chars
deriving DecidableEq

inductive PyErr where
  | jsonDecode (e : JsonError)
  | validationError
  | typeError
  | valueError
  | apiError (e : ApiErr)
deriving DecidableEq

/-! ## Python value semantics on parsed JSON -/

/-- `float(s)` on a string: strip whitespace, then
`[+-]? (digits [. digits?] | . digits) ([eE] [+-]? digits)?`;
anything else raises `ValueError`. -/
def pyFloatOfStr (s : Chars) : Except PyErr ℚ :=
  let t := pyStrip s
  let (neg, t1) :=
    match t with
    | c :: r => if c = '-' then (true, r) else if c = '+' then (false, r) else (false, t)
    | [] => (false, t)
  let (ip, t2) := spanP Char.isDigit t1
  let (fp, t3) :=
    match t2 with
    | '.' :: r => spanP Char.isDigit r
    | _ => ([], t2)
  if ip = [] ∧ fp = [] then .error .valueError
  else
    let (expVal, t4) : Int × Chars :=
      match t3 with
      | e :: r =>
          if e = 'e' ∨ e = 'E' then
            let (esign, r2) :=
              match r with
              | sc :: r3 =>
                  if sc = '-' then (true, r3)
                  else if sc = '+' then (false, r3)
                  else (false, r)
              | [] => (false, r)
            let (ds, r4) := spanP Char.isDigit r2
            if ds = [] then (0, t3)
            else ((if esign then -1 else 1) * (digitsToNat ds : Int), r4)
          else (0, t3)
      | [] => (0, t3)
    if t4 ≠ [] then .error .valueError
    else
      let mantissa : Int := (digitsToNat (ip ++ fp) : Int)
      .ok ((if neg then -mantissa else mantissa) * tenPow (expVal - (fp.length : Int)))

/-- `float(x)` on a value parsed from JSON: numbers are themselves, bools
are `1.0`/`0.0`, strings are parsed, everything else raises `TypeError`. -/
def pyFloatOfJson : Json → Except PyErr ℚ
  | .num q => .ok q
  | .bool b => .ok (if b then 1 else 0)
  | .str s => pyFloatOfStr s
  | _ => .error .typeError

/-- `x / 100.0` on a value parsed from JSON: numeric values divide, bools
coerce (`True/100.0 == 0.01`), everything else raises `TypeError`. -/
def pyDiv100 : Json → Except PyErr ℚ
  | .num q => .ok (q / 100)
  | .bool b => .ok ((if b then 1 else 0) / 100)
  | _ => .error .typeError

/-- Python truthiness of a value parsed from JSON. -/
def pyTruthy : Json → Bool
  | .null => false
  | .bool b => b
  | .num q => q ≠ 0
  | .str s => ¬ s.isEmpty
  | .arr xs => ¬ xs.isEmpty
  | .obj kvs => ¬ kvs.isEmpty

/-- `repr(x)` of a value parsed from JSON (python containers repr their
elements; strings get single quotes).  Only reachable through `str` on
container elements, which the analysed inputs never exercise. -/
def pyReprJson : Nat → Json → Chars
  | 0, _ => []
  | _ + 1, .null => S "None"
  | _ + 1, .bool b => if b then S "True" else S "False"
  | _ + 1, .num q => dumpsNum q
  | _ + 1, .str s => aposChar :: s ++ [aposChar]
  | f + 1, .arr xs =>
      '[' :: (List.intercalate (S ", ") (xs.map (pyReprJson f))) ++ [']']
  | f + 1, .obj kvs =>
      '{' :: (List.intercalate (S ", ")
        (kvs.map fun kv => (aposChar :: kv.1 ++ [aposChar]) ++
          ':' :: ' ' :: pyReprJson f kv.2)) ++ ['}']

/-- `str(x)` of a value parsed from JSON. -/
def pyStr : Json → Chars
  | .str s => s
  | j => pyReprJson 100 j

/-- `for x in v`: lists yield elements, strings yield 1-character
strings, dicts yield their keys; numbers, bools and `None` raise
`TypeError`. -/
def pyIter : Json → Except PyErr (List Json)
  | .arr xs => .ok xs
  | .str s => .ok (s.map fun c => .str [c])
  | .obj kvs => .ok ((kvs.map (·.1)).eraseDups.map .str)
  | _ => .error .typeError

/-! ## The pydantic models (`models/job_match_models.py`,
`models/decision_models.py`, `models/resume_models.py`)

Each model is a structure; its field validators are pure functions run by
the smart constructor `.make`, exactly as pydantic runs them on
construction. -/

namespace Models

/-- `AnalysisBreakdown.validate_score`: clamp to `[0.0, 1.0]`. -/
def validate_score (v : ℚ) : ℚ := max 0 (min 1 v)

structure AnalysisBreakdown where
  score : ℚ
  details : List Chars
deriving DecidableEq

/-- Construction of `AnalysisBreakdown(score=…, details=…)`: the
validator clamps the score. -/
def AnalysisBreakdown.make (score : ℚ) (details : List Chars) : AnalysisBreakdown :=
  ⟨validate_score score, details⟩

/-- The model's declared defaults. -/
def defaultAnalysisBreakdown : AnalysisBreakdown :=
  AnalysisBreakdown.make 0 [S "No analysis available yet"]

/-- `MatchAnalysis.validate_overall_score`: clamp to `[0.0, 1.0]`. -/
def validate_overall_score (v : ℚ) : ℚ := max 0 (min 1 v)

structure MatchAnalysis where
  overall_match_score : ℚ
  skills_match : AnalysisBreakdown
  experience_match : AnalysisBreakdown
  education_match : AnalysisBreakdown
  additional_insights : List Chars
  recommended_interview_questions : List Chars
deriving DecidableEq

def defaultRIQ : List Chars := [S "No interview questions generated yet"]

def MatchAnalysis.make (overall : ℚ) (sk ex ed : AnalysisBreakdown)
    (ins : List Chars) (riq : List Chars) : MatchAnalysis :=
  ⟨validate_overall_score overall, sk, ex, ed, ins, riq⟩

/-- The model's declared defaults (`MatchAnalysis()`). -/
def defaultMatchAnalysis : MatchAnalysis :=
  MatchAnalysis.make 0
    (AnalysisBreakdown.make 0 [S "Skills analysis not yet performed"])
    (AnalysisBreakdown.make 0 [S "Experience analysis not yet performed"])
    (AnalysisBreakdown.make 0 [S "Education analysis not yet performed"])
    [S "Analysis pending - please process a resume and job description"]
    defaultRIQ

/-- `DecisionDetails.validate_confidence`: clamp to `[0, 100]`. -/
def validate_confidence (v : ℤ) : ℤ := max 0 (min 100 v)

structure DecisionDetails where
  status : Chars
  confidence_score : ℤ
  interview_stage : Chars
deriving DecidableEq

def DecisionDetails.make (st : Chars) (c : ℤ) (iv : Chars) : DecisionDetails :=
  ⟨st, validate_confidence c, iv⟩

/-- `DecisionDetails()`: status `DecisionStatus.HOLD`, confidence 30,
stage `"SCREENING"`. -/
def defaultDecisionDetails : DecisionDetails :=
  ⟨S "HOLD", 30, S "SCREENING"⟩

structure RationaleDetails where
  key_strengths : List Chars
  concerns : List Chars
  risk_factors : List Chars
deriving DecidableEq

def defaultRationaleDetails : RationaleDetails :=
  ⟨[S "Pending resume analysis"],
   [S "Resume analysis not yet completed"],
   [S "Unable to assess risk factors until analysis is complete"]⟩

structure RecommendationDetails where
  interview_focus : List Chars
  skill_verification : List Chars
  discussion_points : List Chars
deriving DecidableEq

def defaultRecommendationDetails : RecommendationDetails :=
  ⟨[S "Complete resume analysis required before providing interview focus areas"],
   [S "Skills verification pending resume processing"],
   [S "Discussion points will be generated after resume analysis"]⟩

structure HiringManagerNotes where
  salary_band_fit : Chars
  growth_trajectory : Chars
  team_fit_considerations : Chars
  onboarding_requirements : List Chars
deriving DecidableEq

def defaultHiringManagerNotes : HiringManagerNotes :=
  ⟨S "Pending assessment", S "To be evaluated", S "Awaiting team fit analysis",
   [S "Complete candidate profile required for onboarding assessment"]⟩

structure NextStepsDetails where
  immediate_actions : List Chars
  required_approvals : List Chars
  timeline_recommendation : Chars
deriving DecidableEq

def defaultNextStepsDetails : NextStepsDetails :=
  ⟨[S "Upload and process resume", S "Add job description", S "Run analysis"],
   [S "Initial screening pending"],
   S "Analysis required before timeline can be determined"⟩

structure DecisionFeedback where
  decision : DecisionDetails
  rationale : RationaleDetails
  recommendations : RecommendationDetails
  hiring_manager_notes : HiringManagerNotes
  next_steps : NextStepsDetails
deriving DecidableEq

/-- `DecisionFeedback()`: every field from its default factory. -/
def defaultDecisionFeedback : DecisionFeedback :=
  ⟨defaultDecisionDetails, defaultRationaleDetails, defaultRecommendationDetails,
   defaultHiringManagerNotes, defaultNextStepsDetails⟩

structure PersonalInfo where
  name : Chars
  email : Chars
  phone : Option Chars
  location : Option Chars
deriving DecidableEq

structure Education where
  degree : Chars
  institution : Chars
  graduation_year : Option ℤ
  gpa : Option ℚ
  field : Option Chars
  graduation_date : Option Chars
deriving DecidableEq

structure Experience where
  title : Chars
  company : Chars
  duration : Chars
  description : List Chars
  location : Option Chars
  start_date : Option Chars
  end_date : Option Chars
  responsibilities : List Chars
  achievements : List Chars
deriving DecidableEq

structure Project where
  name : Chars
  description : Option Chars
  technologies : List Chars
  url : Option Chars
deriving DecidableEq

structure Certification where
  name : Chars
  issuer : Option Chars
  date : Option Chars
deriving DecidableEq

structure ParsedResume where
  personal_info : PersonalInfo
  summary : Option Chars
  education : List Education
  experience : List Experience
  skills : List Chars
  projects : List Project
  certifications : List Certification
deriving DecidableEq

end Models

/-! ### Validator-satisfaction predicates

`Valid` holds of an instance whose numeric fields lie in the range their
clamping validator enforces (equivalently: the validators are the
identity on them). -/

def Models.AnalysisBreakdown.Valid (b : Models.AnalysisBreakdown) : Prop :=
  0 ≤ b.score ∧ b.score ≤ 1

def Models.MatchAnalysis.Valid (m : Models.MatchAnalysis) : Prop :=
  0 ≤ m.overall_match_score ∧ m.overall_match_score ≤ 1 ∧
  m.skills_match.Valid ∧ m.experience_match.Valid ∧ m.education_match.Valid

def Models.DecisionFeedback.Valid (d : Models.DecisionFeedback) : Prop :=
  0 ≤ d.decision.confidence_score ∧ d.decision.confidence_score ≤ 100

instance (b : Models.AnalysisBreakdown) : Decidable b.Valid := by
  unfold Models.AnalysisBreakdown.Valid; infer_instance

instance (m : Models.MatchAnalysis) : Decidable m.Valid := by
  unfold Models.MatchAnalysis.Valid; infer_instance

instance (d : Models.DecisionFeedback) : Decidable d.Valid := by
  unfold Models.DecisionFeedback.Valid; infer_instance

/-! ## `agents/job_matching_agent.py` -/

namespace JobMatchingAgent

open Models

/-- Scores dictionary of `extract_valid_json_scores`. -/
structure Scores where
  match_score : Nat
  skills_score : Nat
  experience_score : Nat
  education_score : Nat
  additional_score : Nat
deriving DecidableEq

/-- `extract_valid_json_scores`: regex scan of the raw completion with
hardcoded defaults `80/80/75/85/70` for every field the scan misses (the
function's `try` body cannot raise, and its `except` returns the same
dictionary). -/
def extract_valid_json_scores (json_text : Chars) : Scores where
  match_score := (searchMatchScore json_text).getD 80
  skills_score := (searchNestedScore "skills" json_text).getD 80
  experience_score := (searchNestedScore "experience" json_text).getD 75
  education_score := (searchNestedScore "education" json_text).getD 85
  additional_score := (searchNestedScore "additional" json_text).getD 70

/-- The `minimal_json` dictionary built from regex-extracted scores. -/
def minimal_json (score skills experience education : Nat) : Json :=
  .obj
    [(S "match_score", .num score),
     (S "analysis", .obj
       [(S "skills", .obj
         [(S "score", .num skills),
          (S "matches", .arr [.str (S "Automatically extracted skill match")]),
          (S "gaps", .arr [.str (S "Consider checking actual skill gaps")])]),
        (S "experience", .obj
         [(S "score", .num experience),
          (S "matches", .arr [.str (S "Automatically extracted experience match")]),
          (S "gaps", .arr [.str (S "Consider checking actual experience gaps")])]),
        (S "education", .obj
         [(S "score", .num education),
          (S "matches", .arr [.str (S "Automatically extracted education match")]),
          (S "gaps", .arr [])]),
        (S "additional", .obj
         [(S "score", .num 75),
          (S "matches", .arr [.str (S "Automatically generated additional match")]),
          (S "gaps", .arr [])])]),
     (S "recommendation", .str (S "This is an automatically reconstructed result due to parsing issues with the original response.")),
     (S "key_strengths", .arr
       [.str (S "Strength information was not fully recoverable"),
        .str (S "Consider re-running analysis for detailed strengths")]),
     (S "areas_for_consideration", .arr
       [.str (S "Areas for consideration were not fully recoverable"),
        .str (S "Consider re-running analysis for detailed considerations")])]

/-- The `default_json` dictionary returned when every cleaning attempt
has failed: fixed scores 80 / 80 / 75 / 85 / 70. -/
def default_json : Json :=
  .obj
    [(S "match_score", .num 80),
     (S "analysis", .obj
       [(S "skills", .obj
         [(S "score", .num 80),
          (S "matches", .arr [.str (S "Default skill match")]),
          (S "gaps", .arr [.str (S "Default skill gap")])]),
        (S "experience", .obj
         [(S "score", .num 75),
          (S "matches", .arr [.str (S "Default experience match")]),
          (S "gaps", .arr [.str (S "Default experience gap")])]),
        (S "education", .obj
         [(S "score", .num 85),
          (S "matches", .arr [.str (S "Default education match")]),
          (S "gaps", .arr [])]),
        (S "additional", .obj
         [(S "score", .num 70),
          (S "matches", .arr [.str (S "Default additional match")]),
          (S "gaps", .arr [.str (S "Default additional gap")])])]),
     (S "recommendation", .str (S "This is a default result due to parsing issues. Consider re-running the analysis.")),
     (S "key_strengths", .arr
       [.str (S "Unable to extract actual strengths due to parsing issues")]),
     (S "areas_for_consideration", .arr
       [.str (S "Unable to extract actual considerations due to parsing issues")])]

/-- The `fallback_json` dictionary of the `except Exception` arm of the
advanced-cleaning block: every score 75. -/
def fallback_json : Json :=
  .obj
    [(S "match_score", .num 75),
     (S "analysis", .obj
       [(S "skills", .obj
         [(S "score", .num 75), (S "matches", .arr []), (S "gaps", .arr [])]),
        (S "experience", .obj
         [(S "score", .num 75), (S "matches", .arr []), (S "gaps", .arr [])]),
        (S "education", .obj
         [(S "score", .num 75), (S "matches", .arr []), (S "gaps", .arr [])]),
        (S "additional", .obj
         [(S "score", .num 75), (S "matches", .arr []), (S "gaps", .arr [])])])]

/-- Fence stripping plus greedy outer-brace capture (lines 61–76). -/
def stripStage (t : Chars) : Chars :=
  extractBraceSpan (stripCodeFences (pyStrip t))

/-- The four "basic fixes" (lines 84–93), in source order: quote bare
keys, single→double quotes, newline-separated missing commas, trailing
commas; the parse is attempted once, after all four. -/
def basicFixes (s : Chars) : Chars :=
  subTrailingCommas (subMissingCommas (replaceSingleQuotes (subQuoteKeys s)))

/-- Python `s.split(':', 1)` (callers guard on `':' in s`). -/
def splitColon1 (s : Chars) : Chars × Chars :=
  let (a, b) := spanP (· ≠ ':') s
  (a, b.drop 1)

/-- One line of the aggressive pass (lines 166–182): requote `key: value`
lines not starting with a quote. -/
def requoteLine (line : Chars) : Chars :=
  let (k, v) := splitColon1 line
  quoteChar :: pyStrip k ++ [quoteChar, ':', ' '] ++ pyStrip v

def aggressiveLines : List Chars → Nat → Nat → List Chars
  | [], _, _ => []
  | l :: ls, i, n =>
      let line := pyStrip l
      if line.isEmpty then aggressiveLines ls (i + 1) n
      else
        let line1 :=
          if containsChar ':' line ∧ ¬ pyStartswith [quoteChar] line then
            requoteLine line
          else line
        let line2 :=
          if i < n - 1 ∧ ¬ pyEndswith [','] line1 ∧ ¬ pyEndswith ['{'] line1 ∧
              ¬ pyEndswith ['['] line1 then
            if ¬ pyEndswith ['}'] line1 ∧ ¬ pyEndswith [']'] line1 then
              line1 ++ [',']
            else line1
          else line1
        line2 :: aggressiveLines ls (i + 1) n

/-- The aggressive pass (lines 161–184): strip every line, drop blanks,
requote, append commas. -/
def aggressiveStage (s : Chars) : Chars :=
  let lines := splitNl s
  joinNl (aggressiveLines lines 0 lines.length)

/-- Advanced cleaning (lines 102–228): extract scores into
`minimal_json`, else aggressive line surgery, else `default_json`.
The body raises nothing, so the `except Exception` arm returning
`fallback_json` is unreachable; it is kept in `clean_json_response` to
mirror the source. -/
def advancedStage (c1 : Chars) : Except PyErr Chars :=
  match searchMatchScore c1 with
  | some score =>
      .ok (jsonDumps (minimal_json score
        ((searchNestedScore "skills" c1).getD score)
        ((searchNestedScore "experience" c1).getD score)
        ((searchNestedScore "education" c1).getD score)))
  | none =>
      let c2 := aggressiveStage c1
      match jsonLoads c2 with
      | .ok _ => .ok c2
      | .error _ => .ok (jsonDumps default_json)

/-- `JobMatchingAgent.clean_json_response` (lines 48–244).  The very
first check parses the *raw* `response_text`; only when that fails is the
text stripped and repaired. -/
def clean_json_response (t : Chars) : Except PyErr Chars :=
  match jsonLoads t with
  | .ok _ => .ok t
  | .error _ =>
      let c1 := basicFixes (stripStage t)
      match jsonLoads c1 with
      | .ok _ => .ok c1
      | .error _ =>
          match advancedStage c1 with
          | .ok s => .ok s
          | .error _ => .ok (jsonDumps fallback_json)

/-- `create_default_analysis` (lines 246–259). -/
def create_default_analysis : MatchAnalysis :=
  let empty_breakdown := AnalysisBreakdown.make (3 / 4)
    [S "Analysis estimated - Please check results manually"]
  MatchAnalysis.make (4 / 5) empty_breakdown empty_breakdown empty_breakdown
    [S "Analysis was estimated due to processing limitations - Results may not be fully accurate"]
    defaultRIQ

/-- The transformed dictionary built by `_transform_api_response` (its
fixed shape; `additional_insights` may hold the raw `recommendation`
value, which need not be a string). -/
structure Transformed where
  overall_match_score : ℚ
  skills_score : ℚ
  skills_details : List Chars
  experience_score : ℚ
  experience_details : List Chars
  education_score : ℚ
  education_details : List Chars
  additional_insights : List Json
  riq : Option (List Chars)

/-- `create_default_analysis().dict()` as a transformed dictionary. -/
def defaultAnalysisDict : Transformed where
  overall_match_score := 4 / 5
  skills_score := 3 / 4
  skills_details := [S "Analysis estimated - Please check results manually"]
  experience_score := 3 / 4
  experience_details := [S "Analysis estimated - Please check results manually"]
  education_score := 3 / 4
  education_details := [S "Analysis estimated - Please check results manually"]
  additional_insights := [.str (S "Analysis was estimated due to processing limitations - Results may not be fully accurate")]
  riq := some defaultRIQ

/-- The `except Exception` fallback of `_transform_api_response`
(lines 434–440): flat 0.8 estimates. -/
def errorEstimateDict : Transformed where
  overall_match_score := 4 / 5
  skills_score := 4 / 5
  skills_details := [S "Error occurred. Using estimated values."]
  experience_score := 4 / 5
  experience_details := [S "Error occurred. Using estimated values."]
  education_score := 4 / 5
  education_details := [S "Error occurred. Using estimated values."]
  additional_insights := [.str (S "Note: Error occurred while processing. Results are estimated.")]
  riq := none

/-- The string branch of `_transform_api_response` (lines 321–335):
regex-extract `match_score`, default 0.8. -/
def strSalvageDict (s : Chars) : Transformed :=
  let overall : ℚ :=
    match searchMatchScoreTight s with
    | some n => (n : ℚ) / 100
    | none => 4 / 5
  { overall_match_score := overall
    skills_score := overall
    skills_details := [S "Partial results extracted"]
    experience_score := overall
    experience_details := [S "Partial results extracted"]
    education_score := overall
    education_details := [S "Partial results extracted"]
    additional_insights := [.str (S "Partial analysis completed - some details may be missing")]
    riq := none }

/-- `_combine_matches_gaps` (lines 442–451). -/
def combine_matches_gaps (ms gaps : Json) : Except PyErr (List Chars) := do
  let part1 ←
    if pyTruthy ms then do
      let xs ← pyIter ms
      pure (S "Matches:" :: xs.map fun x => S "+ " ++ pyStr x)
    else pure []
  let part2 ←
    if pyTruthy gaps then do
      let xs ← pyIter gaps
      pure (S "Gaps:" :: xs.map fun x => S "- " ++ pyStr x)
    else pure []
  let r := part1 ++ part2
  pure (if r.isEmpty then [S "No specific details available"] else r)

/-- `analysis.get(name, {})` followed by the non-dict replacement with
default score `d` (lines 357–365). -/
def sectionDict (a : List (Chars × Json)) (name : String) (d : Nat) :
    List (Chars × Json) :=
  match jGetD a (S name) (.obj []) with
  | .obj s => s
  | _ => [(S "score", .num d), (S "matches", .arr []), (S "gaps", .arr [])]

/-- Lines 342–348: `float(raw_data["match_score"]) / 100.0` with the
`except (ValueError, TypeError)` fallback 0.8 — `float()` raises only
those two kinds, so the handler makes this total — and 0.0 when the key
is absent. -/
def matchScoreOf (kvs : List (Chars × Json)) : ℚ :=
  match jGet kvs (S "match_score") with
  | none => 0
  | some v =>
      match pyFloatOfJson v with
      | .ok q => q / 100
      | .error _ => 4 / 5

/-- The main (dict) branch of `_transform_api_response`
(lines 340–426). -/
def transformDict (kvs : List (Chars × Json)) : Except PyErr Transformed := do
  let match_score : ℚ := matchScoreOf kvs
  let aKvs :=
    match jGetD kvs (S "analysis") (.obj []) with
    | .obj a => a
    | _ => []
  let skills := sectionDict aKvs "skills" 80
  let experience := sectionDict aKvs "experience" 75
  let education := sectionDict aKvs "education" 70
  let _additional := sectionDict aKvs "additional" 65
  let skScore ← pyDiv100 (jGetD skills (S "score") (.num 0))
  let skDetails ← combine_matches_gaps (jGetD skills (S "matches") (.arr []))
    (jGetD skills (S "gaps") (.arr []))
  let exScore ← pyDiv100 (jGetD experience (S "score") (.num 0))
  let exDetails ← combine_matches_gaps (jGetD experience (S "matches") (.arr []))
    (jGetD experience (S "gaps") (.arr []))
  let edScore ← pyDiv100 (jGetD education (S "score") (.num 0))
  let edDetails ← combine_matches_gaps (jGetD education (S "matches") (.arr []))
    (jGetD education (S "gaps") (.arr []))
  let recommendation := jGetD kvs (S "recommendation") (.str [])
  let ins0 : List Json := if pyTruthy recommendation then [recommendation] else []
  let strengths := jGetD kvs (S "key_strengths") (.arr [])
  let considerations := jGetD kvs (S "areas_for_consideration") (.arr [])
  let ins1 ←
    if pyTruthy strengths then do
      let xs ← pyIter strengths
      pure (ins0 ++ .str (S "Key Strengths:") ::
        xs.map fun x => Json.str (S "+ " ++ pyStr x))
    else pure ins0
  let ins2 ←
    if pyTruthy considerations then do
      let xs ← pyIter considerations
      pure (ins1 ++ .str (S "Areas for Consideration:") ::
        xs.map fun x => Json.str (S "- " ++ pyStr x))
    else pure ins1
  let insF := if ins2.isEmpty then [Json.str (S "No additional insights available")] else ins2
  pure
    { overall_match_score := match_score
      skills_score := skScore
      skills_details := skDetails
      experience_score := exScore
      experience_details := exDetails
      education_score := edScore
      education_details := edDetails
      additional_insights := insF
      riq := none }

/-- `_transform_api_response` (lines 311–440): dispatch on the shape of
the parsed data, any internal exception replaced by the 0.8-estimate
dictionary. -/
def transform_api_response (raw : Json) : Transformed :=
  let body : Except PyErr Transformed :=
    match raw with
    | .obj [] => .ok defaultAnalysisDict
    | .obj kvs => transformDict kvs
    | .str s => .ok (strSalvageDict s)
    | _ => .ok defaultAnalysisDict
  match body with
  | .ok t => t
  | .error _ => errorEstimateDict

/-- `MatchAnalysis(**transformed_data)`: pydantic coerces and validates;
only the `additional_insights` items can fail (a non-string
`recommendation`), everything else of the fixed shape validates, with the
clamping validators applied. -/
def matchAnalysisOfTransformed (t : Transformed) : Except PyErr MatchAnalysis := do
  let ins ← t.additional_insights.mapM fun j =>
    match j with
    | .str s => Except.ok s
    | _ => Except.error PyErr.validationError
  pure (MatchAnalysis.make t.overall_match_score
    (AnalysisBreakdown.make t.skills_score t.skills_details)
    (AnalysisBreakdown.make t.experience_score t.experience_details)
    (AnalysisBreakdown.make t.education_score t.education_details)
    ins (t.riq.getD defaultRIQ))

/-- The fallback `MatchAnalysis` built from `extracted_scores` in the
`except` arms of `match_job` (lines 508–515, 520–527, 532–539). -/
def fallbackAnalysis (sc : Scores) : MatchAnalysis :=
  MatchAnalysis.make ((sc.match_score : ℚ) / 100)
    (AnalysisBreakdown.make ((sc.skills_score : ℚ) / 100) [S "Estimated skill match"])
    (AnalysisBreakdown.make ((sc.experience_score : ℚ) / 100) [S "Estimated experience match"])
    (AnalysisBreakdown.make ((sc.education_score : ℚ) / 100) [S "Estimated education match"])
    [S "Analysis was reconstructed from partial data"]
    defaultRIQ

/-- The default analysis of `match_job`'s outermost `except`
(lines 541–558). -/
def defaultOnError : MatchAnalysis :=
  let empty_breakdown := AnalysisBreakdown.make (3 / 4)
    [S "Analysis estimated due to processing error"]
  MatchAnalysis.make (4 / 5) empty_breakdown empty_breakdown empty_breakdown
    [S "Analysis was estimated due to an error - Results may not be fully accurate"]
    defaultRIQ

/-- The `try` of lines 483–539: clean, parse, transform, validate;
`json.JSONDecodeError` / `ValidationError` / any other exception all fall
back to the extracted scores. -/
def cleanAndParse (sc : Scores) (completion : Chars) : Except PyErr MatchAnalysis :=
  match (do
      let cleaned ← clean_json_response completion
      let raw ← (jsonLoads cleaned).mapError PyErr.jsonDecode
      matchAnalysisOfTransformed (transform_api_response raw)
      : Except PyErr MatchAnalysis) with
  | .ok m => .ok m
  | .error _ =>
      -- the handlers of lines 505, 517 and 529 build the identical
      -- fallback dictionary from `extracted_scores`, so the three
      -- handler arms collapse into one
      .ok (fallbackAnalysis sc)

/-- Body of `match_job` inside the outermost `try` (lines 455–539).  The
request/completion boundary is the `api` argument: `.error` is an
exception raised by `make_request`/`get_completion`. -/
def matchJobBody (api : Except ApiErr Chars) : Except PyErr MatchAnalysis :=
  match api with
  | .error e => .error (.apiError e)
  | .ok completion =>
      let scores := extract_valid_json_scores completion
      cleanAndParse scores completion

/-- `match_job` (lines 453–558).  The prompt formatting and the HTTP call
feed only the external request, so the function is modelled on the
completion outcome. -/
def match_job (api : Except ApiErr Chars) : Except PyErr MatchAnalysis :=
  match matchJobBody api with
  | .ok m => .ok m
  | .error _ => .ok defaultOnError

end JobMatchingAgent

/-! ## `agents/decision_feedback_agent.py` -/

namespace DecisionFeedbackAgent

open Models

/-- Fence stripping plus greedy outer-brace capture (lines 27–40, same
text surgery as the job agent's, but applied *before* the validity
check). -/
def stripStage (t : Chars) : Chars :=
  extractBraceSpan (stripCodeFences (pyStrip t))

/-- The four "basic fixes" (lines 52–63), identical to the job agent's:
quote bare keys, single→double quotes, newline-separated missing commas,
trailing commas; one parse attempt afterwards. -/
def basicFixes (s : Chars) : Chars :=
  subTrailingCommas (subMissingCommas (replaceSingleQuotes (subQuoteKeys s)))

/-- Position-directed insertion with the bounds checks of lines 79–87 /
94–102: insert `ch` before 1-indexed column `col` of 1-indexed line `l`
when both are in range, else leave the text unchanged. -/
def posFix (s : Chars) (l col : Nat) (ch : Char) : Chars :=
  let lines := splitNl s
  if 0 < l ∧ l ≤ lines.length then
    let pl := lines.getD (l - 1) []
    if 0 < col ∧ col ≤ pl.length + 1 then
      joinNl (lines.set (l - 1) (insertAt pl (col - 1) ch))
    else s
  else s

/-- Python `s.split(':', 1)` (callers guard on `':' in s`). -/
def splitColon1 (s : Chars) : Chars × Chars :=
  let (a, b) := spanP (· ≠ ':') s
  (a, b.drop 1)

/-- One pass of the structural fixer (lines 106–152): keep original
lines, skip blanks, requote `key:` lines whose key part is not quoted
(via the anchorless `(\s*)(\w+)(\s*:)` substitution over the whole
line), and append a comma when the next original line looks like a new
property. -/
def structuralLines (all : List Chars) : List Chars → Nat → List Chars
  | [], _ => []
  | l :: ls, i =>
      if (pyStrip l).isEmpty then structuralLines all ls (i + 1)
      else
        let pl :=
          if containsChar ':' l then
            let kp := pyStrip (splitColon1 l).1
            if pyStartswith [quoteChar] kp ∧ pyEndswith [quoteChar] kp then l
            else runSub wordColonAt l
          else l
        let pl2 :=
          if i < all.length - 1 then
            let nl := pyStrip (all.getD (i + 1) [])
            if (containsChar ':' nl ∨ pyStartswith [quoteChar] nl) ∧
                ¬ (pyEndswith [','] (pyStrip pl) ∨ pyEndswith ['{'] (pyStrip pl) ∨
                  pyEndswith ['['] (pyStrip pl)) then
              if ¬ (pyEndswith ['}'] (pyStrip pl) ∨ pyEndswith [']'] (pyStrip pl)) then
                pyRstrip pl ++ [',']
              else pl
            else pl
          else pl
        pl2 :: structuralLines all ls (i + 1)

def structuralStage (s : Chars) : Chars :=
  let lines := splitNl s
  joinNl (structuralLines lines lines 0)

/-- `fix_decision_delimiter_error` (lines 170–221): insert a comma at
hardcoded line 26 / column 32 when the text is long enough and the
result parses; otherwise patch missing commas inside the
`hiring_manager_notes` section; otherwise return the input unchanged. -/
def fix_decision_delimiter_error (s : Chars) : Chars :=
  let lines := splitNl s
  let line26 : Option Chars :=
    if 26 ≤ lines.length then
      let pl := lines.getD 25 []
      if 32 ≤ pl.length then
        let fixed := joinNl (lines.set 25 (insertAt pl 32 ','))
        if jsonValid fixed then some fixed else none
      else none
    else none
  match line26 with
  | some f => f
  | none =>
      match reSearch hiringNotesAt s with
      | some sec =>
          let fsec := runSub quoteNlQuoteAt sec
          let fj := strReplace s sec fsec
          if jsonValid fj then fj else s
      | none => s

/-- `DecisionFeedbackAgent.clean_json_response` (lines 21–168): strip,
validity check, basic fixes, one error-position-directed patch chosen by
the kind of the parse error, structural pass, and the specific
delimiter fix, falling through to the current text. -/
def clean_json_response (t : Chars) : Except PyErr Chars :=
  let c := stripStage t
  match jsonLoads c with
  | .ok _ => .ok c
  | .error _ =>
      let c1 := basicFixes c
      match jsonLoads c1 with
      | .ok _ => .ok c1
      | .error e2 =>
          let lc := lineColOf c1 e2.pos
          let c2 :=
            if e2.kind = .unterminatedString then posFix c1 lc.1 lc.2 quoteChar
            else c1
          let c3 :=
            if e2.kind = .expectingComma then posFix c2 lc.1 lc.2 ','
            else c2
          let c4 := structuralStage c3
          match jsonLoads c4 with
          | .ok _ => .ok c4
          | .error _ =>
              let f := fix_decision_delimiter_error c4
              match jsonLoads f with
              | .ok _ => .ok f
              | .error _ => .ok c4

/-! ### `DecisionFeedback(**raw)` — the pydantic v2 lax decode -/

def asStr : Json → Except PyErr Chars
  | .str s => .ok s
  | _ => .error .validationError

/-- Lax `int` coercion: ints, integral floats, and digit strings with an
optional sign. -/
def asInt : Json → Except PyErr ℤ
  | .num q => if q.den = 1 then .ok q.num else .error .validationError
  | .str s =>
      let t := pyStrip s
      let (neg, t1) :=
        match t with
        | c :: r => if c = '-' then (true, r) else if c = '+' then (false, r) else (false, t)
        | [] => (false, t)
      let (ds, t2) := spanP Char.isDigit t1
      if ds.isEmpty ∨ ¬ t2.isEmpty then .error .validationError
      else .ok ((if neg then -1 else 1) * (digitsToNat ds : ℤ))
  | _ => .error .validationError

def asListStr : Json → Except PyErr (List Chars)
  | .arr xs => xs.mapM asStr
  | _ => .error .validationError

/-- Field lookup with a default for a sub-model decode. -/
def fieldOr {α : Type} (kvs : List (Chars × Json)) (k : String) (d : α)
    (f : Json → Except PyErr α) : Except PyErr α :=
  match jGet kvs (S k) with
  | none => .ok d
  | some v => f v

def decodeDecisionDetails : Json → Except PyErr DecisionDetails
  | .obj kvs => do
      let st ← fieldOr kvs "status" (S "HOLD") asStr
      let conf ← fieldOr kvs "confidence_score" 30 asInt
      let iv ← fieldOr kvs "interview_stage" (S "SCREENING") asStr
      -- the `validate_confidence` validator runs on provided values
      pure (DecisionDetails.make st conf iv)
  | _ => .error .validationError

def decodeRationaleDetails : Json → Except PyErr RationaleDetails
  | .obj kvs => do
      let a ← fieldOr kvs "key_strengths" defaultRationaleDetails.key_strengths asListStr
      let b ← fieldOr kvs "concerns" defaultRationaleDetails.concerns asListStr
      let c ← fieldOr kvs "risk_factors" defaultRationaleDetails.risk_factors asListStr
      pure ⟨a, b, c⟩
  | _ => .error .validationError

def decodeRecommendationDetails : Json → Except PyErr RecommendationDetails
  | .obj kvs => do
      let a ← fieldOr kvs "interview_focus" defaultRecommendationDetails.interview_focus asListStr
      let b ← fieldOr kvs "skill_verification" defaultRecommendationDetails.skill_verification asListStr
      let c ← fieldOr kvs "discussion_points" defaultRecommendationDetails.discussion_points asListStr
      pure ⟨a, b, c⟩
  | _ => .error .validationError

def decodeHiringManagerNotes : Json → Except PyErr HiringManagerNotes
  | .obj kvs => do
      let a ← fieldOr kvs "salary_band_fit" defaultHiringManagerNotes.salary_band_fit asStr
      let b ← fieldOr kvs "growth_trajectory" defaultHiringManagerNotes.growth_trajectory asStr
      let c ← fieldOr kvs "team_fit_considerations" defaultHiringManagerNotes.team_fit_considerations asStr
      let d ← fieldOr kvs "onboarding_requirements" defaultHiringManagerNotes.onboarding_requirements asListStr
      pure ⟨a, b, c, d⟩
  | _ => .error .validationError

def decodeNextStepsDetails : Json → Except PyErr NextStepsDetails
  | .obj kvs => do
      let a ← fieldOr kvs "immediate_actions" defaultNextStepsDetails.immediate_actions asListStr
      let b ← fieldOr kvs "required_approvals" defaultNextStepsDetails.required_approvals asListStr
      let c ← fieldOr kvs "timeline_recommendation" defaultNextStepsDetails.timeline_recommendation asStr
      pure ⟨a, b, c⟩
  | _ => .error .validationError

/-- `DecisionFeedback(**raw)`: `**` of a non-mapping is a `TypeError`;
a mapping is decoded field-wise with defaults, nested dicts coerced to
sub-models, failures being pydantic `ValidationError`s. -/
def decodeDecisionFeedback : Json → Except PyErr DecisionFeedback
  | .obj kvs => do
      let d ← fieldOr kvs "decision" defaultDecisionDetails decodeDecisionDetails
      let r ← fieldOr kvs "rationale" defaultRationaleDetails decodeRationaleDetails
      let rec2 ← fieldOr kvs "recommendations" defaultRecommendationDetails decodeRecommendationDetails
      let h ← fieldOr kvs "hiring_manager_notes" defaultHiringManagerNotes decodeHiringManagerNotes
      let n ← fieldOr kvs "next_steps" defaultNextStepsDetails decodeNextStepsDetails
      pure ⟨d, r, rec2, h, n⟩
  | _ => .error .typeError

/-- `create_default_decision` (lines 291–316): the `decision` field is
not passed and comes from its default factory; the others are the
explicit "Unable to determine"-style placeholders. -/
def create_default_decision : DecisionFeedback where
  decision := defaultDecisionDetails
  rationale :=
    ⟨[S "Unable to determine due to processing error"],
     [S "Unable to process candidate data completely"],
     [S "Decision based on incomplete information"]⟩
  recommendations :=
    ⟨[S "Verify resume contents manually"],
     [S "Conduct thorough technical assessment"],
     [S "Discuss areas mentioned in resume"]⟩
  hiring_manager_notes :=
    ⟨S "Unable to determine", S "Unable to determine",
     S "Manual assessment required", [S "Standard onboarding process"]⟩
  next_steps :=
    ⟨[S "Re-run analysis or manually review"],
     [S "Hiring manager approval needed"],
     S "Proceed with caution due to data processing issues"⟩

/-- Body of `generate_decision` inside its outermost `try`
(lines 325–384): an API failure yields the default decision (line 354);
a direct parse+validate is tried first (lines 357–363), then cleaning
and a second parse, whose `JSONDecodeError`/`ValidationError` handlers
also yield the default decision.  A `TypeError` from `**raw` is caught
only by the outermost handler. -/
def generateBody (api : Except ApiErr Chars) : Except PyErr DecisionFeedback :=
  match api with
  | .error _ => .ok create_default_decision
  | .ok completion =>
      match (do
          let raw ← (jsonLoads completion).mapError PyErr.jsonDecode
          decodeDecisionFeedback raw
          : Except PyErr DecisionFeedback) with
      | .ok d => .ok d
      | .error (.jsonDecode _) => afterClean completion
      | .error .validationError => afterClean completion
      | .error e => .error e
where
  afterClean (completion : Chars) : Except PyErr DecisionFeedback := do
    let cleaned ← clean_json_response completion
    match (do
        let raw ← (jsonLoads cleaned).mapError PyErr.jsonDecode
        decodeDecisionFeedback raw
        : Except PyErr DecisionFeedback) with
    | .ok d => .ok d
    | .error (.jsonDecode _) => .ok create_default_decision
    | .error .validationError => .ok create_default_decision
    | .error e => .error e

/-- `generate_decision` (lines 318–390): no exception escapes — the
outermost `except Exception` returns the default decision. -/
def generate_decision (api : Except ApiErr Chars) : Except PyErr DecisionFeedback :=
  match generateBody api with
  | .ok d => .ok d
  | .error _ => .ok create_default_decision

end DecisionFeedbackAgent

/-! ## `agents/resume_parsing_agent.py` -/

namespace ResumeParsingAgent

open Models

/-- `create_empty_structure` (lines 366–376): empty personal info and
lists, every other field from its declared default. -/
def create_empty_structure : ParsedResume where
  personal_info := ⟨[], [], none, none⟩
  summary := some (S "Resume summary pending")
  education := []
  experience := []
  skills := []
  projects := []
  certifications := []

/-- Body of `parse_resume` inside its `try` (lines 29–65): the empty-text
guard raises `ValueError`; the request/completion boundary is the `api`
argument; the template conversion is the `convert` argument — its
behaviour (including any exception, as an `.error`) is universally
quantified in the theorems, which subsumes the concrete
`convert_template_to_json`. -/
def parseBody (convert : Chars → Except PyErr ParsedResume)
    (api : Except ApiErr Chars) (resume_text : Chars) : Except PyErr ParsedResume :=
  if resume_text.isEmpty ∨ (pyStrip resume_text).isEmpty then .error .valueError
  else
    match api with
    | .error e => .error (.apiError e)
    | .ok completion => convert completion

/-- `parse_resume` (lines 27–76): both the `ValidationError` handler and
the catch-all return `create_empty_structure`. -/
def parse_resume (convert : Chars → Except PyErr ParsedResume)
    (api : Except ApiErr Chars) (resume_text : Chars) : Except PyErr ParsedResume :=
  match parseBody convert api resume_text with
  | .ok r => .ok r
  | .error _ => .ok create_empty_structure

end ResumeParsingAgent

/-! ## Helper lemmas -/

set_option maxRecDepth 1000000

theorem splitNl_ne_nil (s : Chars) : splitNl s ≠ [] := by
  induction s with
  | nil => simp [splitNl]
  | cons c r ih =>
      simp only [splitNl]
      split
      · simp
      · match h : splitNl r with
        | [] => exact absurd h ih
        | l :: ls => simp

theorem joinNl_splitNl (s : Chars) : joinNl (splitNl s) = s := by
  induction s with
  | nil => rfl
  | cons c r ih =>
      simp only [splitNl]
      split
      · next hc =>
          subst hc
          match h : splitNl r with
          | [] => exact absurd h (splitNl_ne_nil r)
          | l :: ls =>
              rw [h] at ih
              simp [joinNl, ih]
      · next hc =>
          match h : splitNl r with
          | [] => exact absurd h (splitNl_ne_nil r)
          | l :: ls =>
              rw [h] at ih
              match ls with
              | [] => simp [joinNl] at ih ⊢; simp [ih]
              | m :: ms =>
                  simp only [joinNl] at ih ⊢
                  simp [← ih]

theorem countChar_append (a : Char) (x y : Chars) :
    countChar a (x ++ y) = countChar a x + countChar a y :=
  List.count_append a x y

theorem countChar_insertAt (a : Char) (x : Chars) (j : Nat) :
    countChar a (insertAt x j a) = countChar a x + 1 := by
  unfold insertAt countChar
  rw [List.count_append]
  conv_rhs => rw [← List.take_append_drop j x, List.count_append]
  simp [List.count_cons]
  omega

theorem count_joinNl_set (a : Char) :
    ∀ (ls : List Chars) (i : Nat) (x : Chars), i < ls.length →
      countChar a (joinNl (ls.set i x)) + countChar a (ls.getD i []) =
        countChar a (joinNl ls) + countChar a x := by
  intro ls
  induction ls with
  | nil => intro i x h; simp at h
  | cons l rest ih =>
      intro i x h
      match i with
      | 0 =>
          match rest with
          | [] => simp [joinNl, countChar]; omega
          | m :: ms =>
              simp only [List.set, joinNl, countChar]
              simp [List.count_append, List.count_cons]
              omega
      | i + 1 =>
          match rest with
          | [] => simp at h
          | m :: ms =>
              have hlt : i < (m :: ms).length := by simpa using h
              have hrec := ih i x hlt
              have hne : (m :: ms).set i x ≠ [] := by
                cases i <;> simp
              simp only [List.set, joinNl]
              match hs : (m :: ms).set i x with
              | [] => exact absurd hs hne
              | y :: ys =>
                  rw [hs] at hrec
                  simp only [countChar, List.count_append, List.count_cons,
                    List.getD_cons_succ] at hrec ⊢
                  omega

/-! ### Totality helpers: every branch of the embedded fallback chains
ends in `.ok` -/

theorem cleanJM_total (t : Chars) :
    ∃ s, JobMatchingAgent.clean_json_response t = .ok s := by
  unfold JobMatchingAgent.clean_json_response
  dsimp only
  repeat' split
  all_goals exact ⟨_, rfl⟩

theorem cleanDF_total (t : Chars) :
    ∃ s, DecisionFeedbackAgent.clean_json_response t = .ok s := by
  unfold DecisionFeedbackAgent.clean_json_response
  dsimp only
  repeat' split
  all_goals exact ⟨_, rfl⟩

theorem parse_resume_total (convert : Chars → Except PyErr Models.ParsedResume)
    (api : Except ApiErr Chars) (txt : Chars) :
    ∃ r, ResumeParsingAgent.parse_resume convert api txt = .ok r := by
  unfold ResumeParsingAgent.parse_resume
  split
  all_goals exact ⟨_, rfl⟩

theorem match_job_total (api : Except ApiErr Chars) :
    ∃ m, JobMatchingAgent.match_job api = .ok m := by
  unfold JobMatchingAgent.match_job
  split
  all_goals exact ⟨_, rfl⟩

theorem generate_decision_total (api : Except ApiErr Chars) :
    ∃ d, DecisionFeedbackAgent.generate_decision api = .ok d := by
  unfold DecisionFeedbackAgent.generate_decision
  split
  all_goals exact ⟨_, rfl⟩

/-! ## Claims -/

/-- Claim C1 (confirmed): extraction is total — for every input string
(empty, whitespace, prose, anything) both `clean_json_response`
implementations return a cleaned string and `parse_resume` returns a
`ParsedResume`, never propagating an exception.  The `parse_resume` part
is quantified over the behaviour of `convert_template_to_json`
(including any exception it may raise) and the API outcome. -/
theorem extraction_never_raises :
    (∀ t : Chars, ∃ s, JobMatchingAgent.clean_json_response t = .ok s) ∧
    (∀ t : Chars, ∃ s, DecisionFeedbackAgent.clean_json_response t = .ok s) ∧
    (∀ (convert : Chars → Except PyErr Models.ParsedResume)
        (api : Except ApiErr Chars) (txt : Chars),
      ∃ r, ResumeParsingAgent.parse_resume convert api txt = .ok r) :=
  ⟨cleanJM_total, cleanDF_total, parse_resume_total⟩

/-- Claim C2 (confirmed): no error propagates out of `match_job` or
`generate_decision`; on an API failure they return exactly the
fully-default placeholder records, whose fields carry the explicit
"estimated" / "Unable to determine" labels. -/
theorem pipeline_worst_case_is_default :
    (∀ api, ∃ m, JobMatchingAgent.match_job api = .ok m) ∧
    (∀ api, ∃ d, DecisionFeedbackAgent.generate_decision api = .ok d) ∧
    (∀ e, JobMatchingAgent.match_job (.error e) = .ok JobMatchingAgent.defaultOnError) ∧
    (∀ e, DecisionFeedbackAgent.generate_decision (.error e) =
      .ok DecisionFeedbackAgent.create_default_decision) ∧
    JobMatchingAgent.defaultOnError.skills_match.details =
      [S "Analysis estimated due to processing error"] ∧
    JobMatchingAgent.defaultOnError.additional_insights =
      [S "Analysis was estimated due to an error - Results may not be fully accurate"] ∧
    DecisionFeedbackAgent.create_default_decision.hiring_manager_notes.salary_band_fit =
      S "Unable to determine" ∧
    DecisionFeedbackAgent.create_default_decision.rationale.key_strengths =
      [S "Unable to determine due to processing error"] :=
  ⟨match_job_total, generate_decision_total, fun _ => rfl, fun _ => rfl,
    rfl, rfl, rfl, rfl⟩

/-- A structureless input used by several concrete evaluations. -/
def proseText : Chars := S "The candidate seems strong overall."

/-- Claim C4 (confirmed): when the raw text, the basic-fixed text and the
aggressively rewritten text all fail to parse and no `match_score`
pattern is found, the job-matching cleaner returns the fixed
`default_json` — whose match score is 80 and whose sub-scores are
80/75/85/70, all within 70–85 — rather than zero or an error marker (the
`fallback_json` of the internal `except` arm likewise reports 75). -/
theorem unparseable_text_reports_default_scores (t : Chars)
    (h1 : jsonValid t = false)
    (h2 : jsonValid (JobMatchingAgent.basicFixes (JobMatchingAgent.stripStage t)) = false)
    (h3 : searchMatchScore (JobMatchingAgent.basicFixes (JobMatchingAgent.stripStage t)) = none)
    (h4 : jsonValid (JobMatchingAgent.aggressiveStage
      (JobMatchingAgent.basicFixes (JobMatchingAgent.stripStage t))) = false) :
    JobMatchingAgent.clean_json_response t = .ok (jsonDumps JobMatchingAgent.default_json) ∧
    searchMatchScore (jsonDumps JobMatchingAgent.default_json) = some 80 ∧
    searchNestedScore "skills" (jsonDumps JobMatchingAgent.default_json) = some 80 ∧
    searchNestedScore "experience" (jsonDumps JobMatchingAgent.default_json) = some 75 ∧
    searchNestedScore "education" (jsonDumps JobMatchingAgent.default_json) = some 85 ∧
    searchNestedScore "additional" (jsonDumps JobMatchingAgent.default_json) = some 70 ∧
    searchMatchScore (jsonDumps JobMatchingAgent.fallback_json) = some 75 ∧
    (∀ n ∈ [80, 75, 85, 70], 70 ≤ n ∧ n ≤ 85) := by
  refine ⟨?_, by decide, by decide, by decide, by decide, by decide, by decide, by decide⟩
  unfold JobMatchingAgent.clean_json_response JobMatchingAgent.advancedStage
  unfold jsonValid at h1 h2 h4
  rcases hh1 : jsonLoads t with e1 | j1
  · dsimp only
    rcases hh2 : jsonLoads (JobMatchingAgent.basicFixes (JobMatchingAgent.stripStage t)) with e2 | j2
    · rw [h3]
      dsimp only
      rcases hh4 : jsonLoads (JobMatchingAgent.aggressiveStage
          (JobMatchingAgent.basicFixes (JobMatchingAgent.stripStage t))) with e3 | j3
      · rfl
      · rw [hh4] at h4; simp [Except.toBool] at h4
    · rw [hh2] at h2; simp [Except.toBool] at h2
  · rw [hh1] at h1; simp [Except.toBool] at h1

/-- Witness for C4 at a structureless prose input. -/
theorem unparseable_text_reports_default_scores_witness :
    (jsonValid proseText = false ∧
      jsonValid (JobMatchingAgent.basicFixes (JobMatchingAgent.stripStage proseText)) = false ∧
      searchMatchScore (JobMatchingAgent.basicFixes (JobMatchingAgent.stripStage proseText)) = none ∧
      jsonValid (JobMatchingAgent.aggressiveStage
        (JobMatchingAgent.basicFixes (JobMatchingAgent.stripStage proseText))) = false) ∧
    JobMatchingAgent.clean_json_response proseText =
      .ok (jsonDumps JobMatchingAgent.default_json) :=
  ⟨⟨by decide, by decide, by decide, by decide⟩,
    (unparseable_text_reports_default_scores proseText
      (by decide) (by decide) (by decide) (by decide)).1⟩

/-- Counterexample to C3: on pure prose (no brace-delimited span, no
scalar-field match) extraction does not return any
`Failure(reason="no parseable structure found")` value — it returns the
fixed default scores (`extract_valid_json_scores` yields 80/80/75/85/70)
and the fabricated `default_json` with match score 80. -/
theorem no_failure_result_counterexample :
    proseText.findIdx? (· = '{') = none ∧
    searchMatchScore proseText = none ∧
    searchNestedScore "skills" proseText = none ∧
    searchNestedScore "experience" proseText = none ∧
    searchNestedScore "education" proseText = none ∧
    searchNestedScore "additional" proseText = none ∧
    JobMatchingAgent.extract_valid_json_scores proseText = ⟨80, 80, 75, 85, 70⟩ ∧
    JobMatchingAgent.clean_json_response proseText =
      .ok (jsonDumps JobMatchingAgent.default_json) ∧
    searchMatchScore (jsonDumps JobMatchingAgent.default_json) = some 80 := by
  refine ⟨by decide, by decide, by decide, by decide, by decide, by decide,
    by decide, ?_, by decide⟩
  decide

/-- Claim C3 as amended (the code has no failure value): when no scalar
score pattern matches anywhere in the text, `extract_valid_json_scores`
returns the fixed default dictionary 80/80/75/85/70 — never a failure —
and `clean_json_response` still returns a cleaned string. -/
theorem no_structure_yields_fixed_defaults (t : Chars)
    (h1 : searchMatchScore t = none)
    (h2 : searchNestedScore "skills" t = none)
    (h3 : searchNestedScore "experience" t = none)
    (h4 : searchNestedScore "education" t = none)
    (h5 : searchNestedScore "additional" t = none) :
    JobMatchingAgent.extract_valid_json_scores t = ⟨80, 80, 75, 85, 70⟩ ∧
    ∃ s, JobMatchingAgent.clean_json_response t = .ok s := by
  refine ⟨?_, cleanJM_total t⟩
  unfold JobMatchingAgent.extract_valid_json_scores
  rw [h1, h2, h3, h4, h5]
  rfl

/-- Witness for the amended C3 at a second structureless input. -/
theorem no_structure_yields_fixed_defaults_witness :
    (searchMatchScore (S "hello world") = none ∧
      searchNestedScore "skills" (S "hello world") = none ∧
      searchNestedScore "experience" (S "hello world") = none ∧
      searchNestedScore "education" (S "hello world") = none ∧
      searchNestedScore "additional" (S "hello world") = none) ∧
    JobMatchingAgent.extract_valid_json_scores (S "hello world") = ⟨80, 80, 75, 85, 70⟩ :=
  ⟨⟨by decide, by decide, by decide, by decide, by decide⟩,
    (no_structure_yields_fixed_defaults (S "hello world")
      (by decide) (by decide) (by decide) (by decide) (by decide)).1⟩

/-- Markdown-fenced JSON whose string value holds a single quote: the
fence-stripped text parses, yet the job agent still repairs (and thereby
mangles) it. -/
def fencedApos : Chars :=
  S "```json\n\x7b\"a\": \"it" ++ aposChar :: S "s ok\"\x7d\n```"

/-- Counterexample to C9: for the job-matching agent the repair
monotonicity only looks at the *raw* text — on a fenced response whose
fence-stripped text is already valid JSON, repairs are applied anyway,
the single quote inside a string is mangled, and the output is the
fabricated `default_json`, not the stripped text. -/
theorem stripped_valid_yet_repaired_counterexample :
    jsonValid (JobMatchingAgent.stripStage fencedApos) = true ∧
    JobMatchingAgent.clean_json_response fencedApos =
      .ok (jsonDumps JobMatchingAgent.default_json) ∧
    jsonDumps JobMatchingAgent.default_json ≠ JobMatchingAgent.stripStage fencedApos := by
  exact ⟨by decide, by decide, by decide⟩

/-- Claim C9 as amended: if the *raw* response already parses, the job
agent returns it unchanged with no repair; if the fence-stripped,
brace-extracted text parses, the decision agent returns that text
unchanged with no repair.  (The job agent checks only the raw text, so a
fenced-but-valid payload is still repaired — see the counterexample.) -/
theorem valid_text_passes_unchanged :
    (∀ t, jsonValid t = true → JobMatchingAgent.clean_json_response t = .ok t) ∧
    (∀ t, jsonValid (DecisionFeedbackAgent.stripStage t) = true →
      DecisionFeedbackAgent.clean_json_response t =
        .ok (DecisionFeedbackAgent.stripStage t)) := by
  constructor
  · intro t h
    unfold jsonValid at h
    unfold JobMatchingAgent.clean_json_response
    rcases hh : jsonLoads t with e | j
    · rw [hh] at h; simp [Except.toBool] at h
    · rfl
  · intro t h
    unfold jsonValid at h
    unfold DecisionFeedbackAgent.clean_json_response
    dsimp only
    rcases hh : jsonLoads (DecisionFeedbackAgent.stripStage t) with e | j
    · rw [hh] at h; simp [Except.toBool] at h
    · rfl

/-- Witness for the amended C9 on two concretely valid payloads. -/
theorem valid_text_passes_unchanged_witness :
    (jsonValid (S "\x7b\"x\": 1\x7d") = true ∧
      JobMatchingAgent.clean_json_response (S "\x7b\"x\": 1\x7d") =
        .ok (S "\x7b\"x\": 1\x7d")) ∧
    (jsonValid (DecisionFeedbackAgent.stripStage (S "```json\n\x7b\"y\": 2\x7d\n```")) = true ∧
      DecisionFeedbackAgent.clean_json_response (S "```json\n\x7b\"y\": 2\x7d\n```") =
        .ok (DecisionFeedbackAgent.stripStage (S "```json\n\x7b\"y\": 2\x7d\n```"))) :=
  ⟨⟨by decide, valid_text_passes_unchanged.1 _ (by decide)⟩,
    ⟨by decide, valid_text_passes_unchanged.2 _ (by decide)⟩⟩

/-- A bare-keyed object whose string value holds a single quote: the
first repair alone already yields valid JSON, but the pipeline never
re-parses between repairs. -/
def bareKeyApos : Chars := S "\x7ba: \"it" ++ aposChar :: S "s\"\x7d"

/-- Counterexample to C7: no parse is re-attempted after each individual
repair — on `{a: "it's"}` quoting the bare key alone gives valid JSON,
but the decision cleaner also normalizes the single quote (corrupting
the string), inserts a comma at the resulting error position, and
returns text that does not parse at all. -/
theorem no_reparse_between_repairs_counterexample :
    jsonValid (subQuoteKeys (DecisionFeedbackAgent.stripStage bareKeyApos)) = true ∧
    DecisionFeedbackAgent.clean_json_response bareKeyApos =
      .ok (S "\x7b\"a\": \"it\",s\"\x7d") ∧
    jsonValid (S "\x7b\"a\": \"it\",s\"\x7d") = false := by
  exact ⟨by decide, by decide, by decide⟩

/-- Claim C7 as amended: both agents apply the four repairs — quote bare
keys, normalize single quotes, fix newline-separated missing commas,
remove trailing commas — unconditionally in that fixed order, re-attempt
a parse once after all four, and a success at that single point
short-circuits with the block-repaired text (no per-repair re-parse, no
repair record). -/
theorem repairs_applied_as_one_block (t u : Chars)
    (ht1 : jsonValid (DecisionFeedbackAgent.stripStage t) = false)
    (ht2 : jsonValid (DecisionFeedbackAgent.basicFixes
      (DecisionFeedbackAgent.stripStage t)) = true)
    (hu1 : jsonValid u = false)
    (hu2 : jsonValid (JobMatchingAgent.basicFixes (JobMatchingAgent.stripStage u)) = true) :
    DecisionFeedbackAgent.basicFixes (DecisionFeedbackAgent.stripStage t) =
      subTrailingCommas (subMissingCommas (replaceSingleQuotes
        (subQuoteKeys (DecisionFeedbackAgent.stripStage t)))) ∧
    DecisionFeedbackAgent.clean_json_response t =
      .ok (DecisionFeedbackAgent.basicFixes (DecisionFeedbackAgent.stripStage t)) ∧
    JobMatchingAgent.clean_json_response u =
      .ok (JobMatchingAgent.basicFixes (JobMatchingAgent.stripStage u)) := by
  refine ⟨rfl, ?_, ?_⟩
  · unfold jsonValid at ht1 ht2
    unfold DecisionFeedbackAgent.clean_json_response
    dsimp only
    rcases hh1 : jsonLoads (DecisionFeedbackAgent.stripStage t) with e | j
    · rcases hh2 : jsonLoads (DecisionFeedbackAgent.basicFixes
          (DecisionFeedbackAgent.stripStage t)) with e2 | j2
      · rw [hh2] at ht2; simp [Except.toBool] at ht2
      · rfl
    · rw [hh1] at ht1; simp [Except.toBool] at ht1
  · unfold jsonValid at hu1 hu2
    unfold JobMatchingAgent.clean_json_response
    rcases hh1 : jsonLoads u with e | j
    · dsimp only
      rcases hh2 : jsonLoads (JobMatchingAgent.basicFixes
          (JobMatchingAgent.stripStage u)) with e2 | j2
      · rw [hh2] at hu2; simp [Except.toBool] at hu2
      · rfl
    · rw [hh1] at hu1; simp [Except.toBool] at hu1

/-- Witness for the amended C7 at `{a: 1}` for both agents. -/
theorem repairs_applied_as_one_block_witness :
    (jsonValid (DecisionFeedbackAgent.stripStage (S "\x7ba: 1\x7d")) = false ∧
      jsonValid (DecisionFeedbackAgent.basicFixes
        (DecisionFeedbackAgent.stripStage (S "\x7ba: 1\x7d"))) = true ∧
      jsonValid (S "\x7ba: 1\x7d") = false ∧
      jsonValid (JobMatchingAgent.basicFixes
        (JobMatchingAgent.stripStage (S "\x7ba: 1\x7d"))) = true) ∧
    DecisionFeedbackAgent.clean_json_response (S "\x7ba: 1\x7d") =
      .ok (S "\x7b\"a\": 1\x7d") ∧
    JobMatchingAgent.clean_json_response (S "\x7ba: 1\x7d") =
      .ok (S "\x7b\"a\": 1\x7d") := by
  refine ⟨⟨by decide, by decide, by decide, by decide⟩, ?_, ?_⟩
  · have h := (repairs_applied_as_one_block (S "\x7ba: 1\x7d") (S "\x7ba: 1\x7d")
      (by decide) (by decide) (by decide) (by decide)).2.1
    rw [h]; rfl
  · have h := (repairs_applied_as_one_block (S "\x7ba: 1\x7d") (S "\x7ba: 1\x7d")
      (by decide) (by decide) (by decide) (by decide)).2.2
    rw [h]; rfl

/-- The spec's description of the position-directed patch, as its own
definition for the refinement comparison: "insert a missing comma at the
exact `(line, column)` reported by the parser's error" — before the
1-indexed column `col` of the 1-indexed line `line`. -/
def specCommaInsertion (s : Chars) (line col : Nat) : Chars :=
  joinNl ((splitNl s).set (line - 1)
    (insertAt ((splitNl s).getD (line - 1) []) (col - 1) ','))

/-- Claim C8 (confirmed): when the basic-fixed text fails with an
`Expecting ',' delimiter` error, the decision cleaner inserts a comma at
exactly the `(line, column)` the error reports (whenever that position is
in bounds), inserts at most one comma per call (the patch is attempted
once, hence trivially within any retry bound, and the cleaner is a total
function, so it terminates on every input), and re-attempts the parse on
the patched text: if the structural pass of the patched text parses, it
is the returned result. -/
theorem comma_inserted_at_reported_position (t : Chars) (e : JsonError)
    (h0 : jsonValid (DecisionFeedbackAgent.stripStage t) = false)
    (h1 : jsonLoads (DecisionFeedbackAgent.basicFixes
      (DecisionFeedbackAgent.stripStage t)) = .error e)
    (h2 : e.kind = .expectingComma) :
    ((0 < (lineColOf (DecisionFeedbackAgent.basicFixes (DecisionFeedbackAgent.stripStage t)) e.pos).1 ∧
      (lineColOf (DecisionFeedbackAgent.basicFixes (DecisionFeedbackAgent.stripStage t)) e.pos).1 ≤
        (splitNl (DecisionFeedbackAgent.basicFixes (DecisionFeedbackAgent.stripStage t))).length ∧
      0 < (lineColOf (DecisionFeedbackAgent.basicFixes (DecisionFeedbackAgent.stripStage t)) e.pos).2 ∧
      (lineColOf (DecisionFeedbackAgent.basicFixes (DecisionFeedbackAgent.stripStage t)) e.pos).2 ≤
        ((splitNl (DecisionFeedbackAgent.basicFixes (DecisionFeedbackAgent.stripStage t))).getD
          ((lineColOf (DecisionFeedbackAgent.basicFixes (DecisionFeedbackAgent.stripStage t)) e.pos).1 - 1)
          []).length + 1) →
      DecisionFeedbackAgent.posFix
          (DecisionFeedbackAgent.basicFixes (DecisionFeedbackAgent.stripStage t))
          (lineColOf (DecisionFeedbackAgent.basicFixes (DecisionFeedbackAgent.stripStage t)) e.pos).1
          (lineColOf (DecisionFeedbackAgent.basicFixes (DecisionFeedbackAgent.stripStage t)) e.pos).2
          ',' =
        specCommaInsertion
          (DecisionFeedbackAgent.basicFixes (DecisionFeedbackAgent.stripStage t))
          (lineColOf (DecisionFeedbackAgent.basicFixes (DecisionFeedbackAgent.stripStage t)) e.pos).1
          (lineColOf (DecisionFeedbackAgent.basicFixes (DecisionFeedbackAgent.stripStage t)) e.pos).2) ∧
    countChar ','
        (DecisionFeedbackAgent.posFix
          (DecisionFeedbackAgent.basicFixes (DecisionFeedbackAgent.stripStage t))
          (lineColOf (DecisionFeedbackAgent.basicFixes (DecisionFeedbackAgent.stripStage t)) e.pos).1
          (lineColOf (DecisionFeedbackAgent.basicFixes (DecisionFeedbackAgent.stripStage t)) e.pos).2
          ',') ≤
      countChar ',' (DecisionFeedbackAgent.basicFixes (DecisionFeedbackAgent.stripStage t)) + 1 ∧
    (jsonValid (DecisionFeedbackAgent.structuralStage
        (DecisionFeedbackAgent.posFix
          (DecisionFeedbackAgent.basicFixes (DecisionFeedbackAgent.stripStage t))
          (lineColOf (DecisionFeedbackAgent.basicFixes (DecisionFeedbackAgent.stripStage t)) e.pos).1
          (lineColOf (DecisionFeedbackAgent.basicFixes (DecisionFeedbackAgent.stripStage t)) e.pos).2
          ',')) = true →
      DecisionFeedbackAgent.clean_json_response t =
        .ok (DecisionFeedbackAgent.structuralStage
          (DecisionFeedbackAgent.posFix
            (DecisionFeedbackAgent.basicFixes (DecisionFeedbackAgent.stripStage t))
            (lineColOf (DecisionFeedbackAgent.basicFixes (DecisionFeedbackAgent.stripStage t)) e.pos).1
            (lineColOf (DecisionFeedbackAgent.basicFixes (DecisionFeedbackAgent.stripStage t)) e.pos).2
            ','))) := by
  refine ⟨?_, ?_, ?_⟩
  · rintro ⟨b1, b2, b3, b4⟩
    unfold DecisionFeedbackAgent.posFix specCommaInsertion
    dsimp only
    rw [if_pos ⟨b1, b2⟩, if_pos ⟨b3, b4⟩]
  · unfold DecisionFeedbackAgent.posFix
    dsimp only
    split
    · next hb =>
        split
        · next hb2 =>
            have hi : (lineColOf (DecisionFeedbackAgent.basicFixes
                (DecisionFeedbackAgent.stripStage t)) e.pos).1 - 1 <
                (splitNl (DecisionFeedbackAgent.basicFixes
                  (DecisionFeedbackAgent.stripStage t))).length := by omega
            have hcount := count_joinNl_set ','
              (splitNl (DecisionFeedbackAgent.basicFixes (DecisionFeedbackAgent.stripStage t)))
              ((lineColOf (DecisionFeedbackAgent.basicFixes
                (DecisionFeedbackAgent.stripStage t)) e.pos).1 - 1)
              (insertAt ((splitNl (DecisionFeedbackAgent.basicFixes
                  (DecisionFeedbackAgent.stripStage t))).getD
                  ((lineColOf (DecisionFeedbackAgent.basicFixes
                    (DecisionFeedbackAgent.stripStage t)) e.pos).1 - 1) [])
                ((lineColOf (DecisionFeedbackAgent.basicFixes
                  (DecisionFeedbackAgent.stripStage t)) e.pos).2 - 1) ',') hi
            rw [countChar_insertAt, joinNl_splitNl] at hcount
            omega
        · exact Nat.le_succ _
    · exact Nat.le_succ _
  · intro hv
    unfold jsonValid at h0 hv
    unfold DecisionFeedbackAgent.clean_json_response
    dsimp only
    rcases hh0 : jsonLoads (DecisionFeedbackAgent.stripStage t) with e0 | j0
    · rw [h1]
      dsimp only
      rw [h2]
      rw [if_neg (by decide : ¬ (ErrKind.expectingComma = ErrKind.unterminatedString)),
        if_pos (rfl : ErrKind.expectingComma = ErrKind.expectingComma)]
      rcases hh4 : jsonLoads (DecisionFeedbackAgent.structuralStage
          (DecisionFeedbackAgent.posFix
            (DecisionFeedbackAgent.basicFixes (DecisionFeedbackAgent.stripStage t))
            (lineColOf (DecisionFeedbackAgent.basicFixes
              (DecisionFeedbackAgent.stripStage t)) e.pos).1
            (lineColOf (DecisionFeedbackAgent.basicFixes
              (DecisionFeedbackAgent.stripStage t)) e.pos).2
            ',')) with e4 | j4
      · rw [hh4] at hv; simp [Except.toBool] at hv
      · rfl
    · rw [hh0] at h0; simp [Except.toBool] at h0

/-- The input of the C8 witness: a missing comma between two members,
reported at line 1 column 9. -/
def commaErrInput : Chars := S "\x7b\"a\": 1 \"b\": 2\x7d"

/-- Witness for C8: on `{"a": 1 "b": 2}` the error is
`Expecting ',' delimiter` at position 8 (line 1, column 9); the comma is
inserted exactly there and the patched text `{"a": 1 ,"b": 2}` parses and
is returned. -/
theorem comma_inserted_at_reported_position_witness :
    (jsonValid (DecisionFeedbackAgent.stripStage commaErrInput) = false ∧
      jsonLoads (DecisionFeedbackAgent.basicFixes
        (DecisionFeedbackAgent.stripStage commaErrInput)) =
        .error ⟨.expectingComma, 8⟩) ∧
    DecisionFeedbackAgent.posFix
        (DecisionFeedbackAgent.basicFixes (DecisionFeedbackAgent.stripStage commaErrInput))
        (lineColOf (DecisionFeedbackAgent.basicFixes
          (DecisionFeedbackAgent.stripStage commaErrInput)) 8).1
        (lineColOf (DecisionFeedbackAgent.basicFixes
          (DecisionFeedbackAgent.stripStage commaErrInput)) 8).2 ',' =
      specCommaInsertion
        (DecisionFeedbackAgent.basicFixes (DecisionFeedbackAgent.stripStage commaErrInput))
        (lineColOf (DecisionFeedbackAgent.basicFixes
          (DecisionFeedbackAgent.stripStage commaErrInput)) 8).1
        (lineColOf (DecisionFeedbackAgent.basicFixes
          (DecisionFeedbackAgent.stripStage commaErrInput)) 8).2 ∧
    DecisionFeedbackAgent.clean_json_response commaErrInput =
      .ok (DecisionFeedbackAgent.structuralStage
        (DecisionFeedbackAgent.posFix
          (DecisionFeedbackAgent.basicFixes (DecisionFeedbackAgent.stripStage commaErrInput))
          (lineColOf (DecisionFeedbackAgent.basicFixes
            (DecisionFeedbackAgent.stripStage commaErrInput)) 8).1
          (lineColOf (DecisionFeedbackAgent.basicFixes
            (DecisionFeedbackAgent.stripStage commaErrInput)) 8).2 ',')) ∧
    DecisionFeedbackAgent.clean_json_response commaErrInput =
      .ok (S "\x7b\"a\": 1 ,\"b\": 2\x7d") :=
  ⟨⟨by decide, by rfl⟩,
    (comma_inserted_at_reported_position commaErrInput ⟨.expectingComma, 8⟩
      (by decide) (by rfl) rfl).1 (by decide),
    (comma_inserted_at_reported_position commaErrInput ⟨.expectingComma, 8⟩
      (by decide) (by rfl) rfl).2.2 (by decide),
    by decide⟩

/-- Counterexample to C5: the spec's scenario input `{"score": "92"}`
does *not* store 0.92 — `_transform_api_response` looks only for
`match_score`, so the stored overall and skills scores are 0.0; and a
numeric *string* in a sub-score field (`skills.score = "92"`) raises
internally (`str / 100.0` is a `TypeError`), producing the flat 0.8
error-estimate record instead of 0.92. -/
theorem score_string_not_scaled_counterexample :
    (JobMatchingAgent.transform_api_response
      (.obj [(S "score", .str (S "92"))])).overall_match_score = 0 ∧
    (JobMatchingAgent.transform_api_response
      (.obj [(S "score", .str (S "92"))])).skills_score = 0 ∧
    (0 : ℚ) ≠ 92 / 100 ∧
    (JobMatchingAgent.transform_api_response
      (.obj [(S "match_score", .num 92),
        (S "analysis",
          .obj [(S "skills", .obj [(S "score", .str (S "92"))])])])).skills_score = 4 / 5 ∧
    (4 : ℚ) / 5 ≠ 92 / 100 := by
  refine ⟨by rfl, ?_, by norm_num, by rfl, by norm_num⟩
  rw [show (JobMatchingAgent.transform_api_response
      (.obj [(S "score", .str (S "92"))])).skills_score = (0 : ℚ) / 100 from rfl]
  norm_num

/-- Claim C5 as amended: the divide-by-100 rule holds for the top-level
`match_score` field — numeric values and numeric strings (via `float()`)
are both divided by 100 — and the clamping into `[0.0, 1.0]` happens in
the model validators when the transformed record is turned into a
`MatchAnalysis`; sub-score fields are divided only when already numeric
(a numeric-string sub-score instead yields the 0.8 fallback, and the
spec's `{"score": "92"}` stores 0.0 — see the counterexample). -/
theorem match_score_divided_and_clamped (q : ℚ) (s : Chars)
    (hs : pyFloatOfStr s = .ok q) :
    (JobMatchingAgent.transform_api_response
      (.obj [(S "match_score", .num q)])).overall_match_score = q / 100 ∧
    (JobMatchingAgent.transform_api_response
      (.obj [(S "match_score", .str s)])).overall_match_score = q / 100 ∧
    (∀ (td : JobMatchingAgent.Transformed) (m : Models.MatchAnalysis),
      JobMatchingAgent.matchAnalysisOfTransformed td = .ok m →
      m.overall_match_score = Models.validate_overall_score td.overall_match_score ∧
      m.skills_match.score = Models.validate_score td.skills_score) ∧
    Models.validate_overall_score (92 / 100) = 92 / 100 := by
  refine ⟨by rfl, ?_, ?_, ?_⟩
  · show JobMatchingAgent.matchScoreOf [(S "match_score", .str s)] = q / 100
    unfold JobMatchingAgent.matchScoreOf
    have : jGet [(S "match_score", Json.str s)] (S "match_score") =
        some (Json.str s) := by rfl
    rw [this]
    show (match pyFloatOfJson (Json.str s) with
      | .ok q => q / 100
      | .error _ => 4 / 5) = q / 100
    show (match pyFloatOfStr s with
      | .ok q => q / 100
      | .error _ => 4 / 5) = q / 100
    rw [hs]
  · intro td m h
    unfold JobMatchingAgent.matchAnalysisOfTransformed at h
    rcases hins : td.additional_insights.mapM (fun j => match j with
        | Json.str s => Except.ok s
        | _ => Except.error PyErr.validationError) with e | ins
    · rw [hins] at h; exact absurd h (by simp [Bind.bind, Except.bind])
    · rw [hins] at h
      simp only [Bind.bind, Except.bind, pure, Except.pure] at h
      cases h
      exact ⟨rfl, rfl⟩
  · norm_num [Models.validate_overall_score]

/-- Witness for the amended C5: the string `"92"` parses to 92 and the
stored overall score is 0.92. -/
theorem match_score_divided_and_clamped_witness :
    pyFloatOfStr (S "92") = .ok 92 ∧
    (JobMatchingAgent.transform_api_response
      (.obj [(S "match_score", .str (S "92"))])).overall_match_score = 92 / 100 ∧
    Models.validate_overall_score (92 / 100) = 92 / 100 := by
  have hs : pyFloatOfStr (S "92") = .ok 92 := by
    simp +decide [pyFloatOfStr, S, pyStrip, pyLstrip, pyRstrip, isPyWs, spanP,
      digitsToNat, tenPow]
  exact ⟨hs, (match_score_divided_and_clamped 92 (S "92") hs).2.1,
    (match_score_divided_and_clamped 92 (S "92") hs).2.2.2⟩

/-- Claim C6 (confirmed): every clamp-range validator clamps
out-of-range values to the range bounds and never rejects:
`validate_confidence` is total with values in `[0, 100]`, maps `150` to
`100` and `-5` to `0`, and is the identity on in-range values; the two
`[0.0, 1.0]` score validators behave the same way on their range. -/
theorem clamping_validators (v : ℤ) (q : ℚ)
    (hv : 0 ≤ v ∧ v ≤ 100) (hq : 0 ≤ q ∧ q ≤ 1) :
    (∀ w : ℤ, 0 ≤ Models.validate_confidence w ∧ Models.validate_confidence w ≤ 100) ∧
    Models.validate_confidence v = v ∧
    Models.validate_confidence 150 = 100 ∧
    Models.validate_confidence (-5) = 0 ∧
    (∀ r : ℚ, 0 ≤ Models.validate_score r ∧ Models.validate_score r ≤ 1) ∧
    Models.validate_score q = q ∧
    Models.validate_overall_score q = q ∧
    Models.validate_score (3 / 2) = 1 ∧
    Models.validate_score (-(1 / 2)) = 0 ∧
    Models.validate_overall_score (3 / 2) = 1 ∧
    Models.validate_overall_score (-(1 / 2)) = 0 := by
  obtain ⟨hv0, hv1⟩ := hv
  obtain ⟨hq0, hq1⟩ := hq
  refine ⟨fun w => ⟨le_max_left _ _, max_le (by norm_num) (min_le_left _ _)⟩,
    ?_, by norm_num [Models.validate_confidence],
    by norm_num [Models.validate_confidence],
    fun r => ⟨le_max_left _ _, max_le (by norm_num) (min_le_left _ _)⟩,
    ?_, ?_, by norm_num [Models.validate_score],
    by norm_num [Models.validate_score],
    by norm_num [Models.validate_overall_score],
    by norm_num [Models.validate_overall_score]⟩
  · unfold Models.validate_confidence
    rw [min_eq_right hv1, max_eq_right hv0]
  · unfold Models.validate_score
    rw [min_eq_right hq1, max_eq_right hq0]
  · unfold Models.validate_overall_score
    rw [min_eq_right hq1, max_eq_right hq0]

/-- Witness for C6 at confidence 30 and score 1/2. -/
theorem clamping_validators_witness :
    (((0 : ℤ) ≤ 30 ∧ (30 : ℤ) ≤ 100) ∧ ((0 : ℚ) ≤ 1 / 2 ∧ (1 / 2 : ℚ) ≤ 1)) ∧
    Models.validate_confidence 30 = 30 ∧ Models.validate_score (1 / 2) = 1 / 2 :=
  ⟨⟨⟨by norm_num, by norm_num⟩, ⟨by norm_num, by norm_num⟩⟩,
    (clamping_validators 30 (1 / 2) ⟨by norm_num, by norm_num⟩
      ⟨by norm_num, by norm_num⟩).2.1,
    (clamping_validators 30 (1 / 2) ⟨by norm_num, by norm_num⟩
      ⟨by norm_num, by norm_num⟩).2.2.2.2.2.1⟩

/-- Claim C10 (confirmed): the default-value providers are fully
populated and validator-clean: `create_default_decision` fills the
unset `decision` field from its declared default factory, and every
default record (`DecisionFeedback()`, `MatchAnalysis()`,
`create_default_analysis`, `AnalysisBreakdown()`) satisfies its own
clamping validators (they are pure Lean terms, hence deterministic). -/
theorem default_provider_complete :
    DecisionFeedbackAgent.create_default_decision.decision = Models.defaultDecisionDetails ∧
    DecisionFeedbackAgent.create_default_decision.Valid ∧
    Models.defaultDecisionFeedback.Valid ∧
    Models.defaultMatchAnalysis.Valid ∧
    JobMatchingAgent.create_default_analysis.Valid ∧
    Models.defaultAnalysisBreakdown.Valid ∧
    Models.validate_confidence Models.defaultDecisionDetails.confidence_score =
      Models.defaultDecisionDetails.confidence_score ∧
    DecisionFeedbackAgent.decodeDecisionFeedback (Json.obj []) =
      .ok Models.defaultDecisionFeedback := by
  refine ⟨rfl, ?_, ?_, ?_, ?_, ?_, by decide, by decide⟩
  · show (0 : ℤ) ≤ 30 ∧ (30 : ℤ) ≤ 100
    norm_num
  · show (0 : ℤ) ≤ 30 ∧ (30 : ℤ) ≤ 100
    norm_num
  · refine ⟨?_, ?_, ⟨?_, ?_⟩, ⟨?_, ?_⟩, ⟨?_, ?_⟩⟩ <;>
      norm_num [Models.defaultMatchAnalysis, Models.MatchAnalysis.make,
        Models.AnalysisBreakdown.make, Models.validate_score,
        Models.validate_overall_score]
  · refine ⟨?_, ?_, ⟨?_, ?_⟩, ⟨?_, ?_⟩, ⟨?_, ?_⟩⟩ <;>
      norm_num [JobMatchingAgent.create_default_analysis, Models.MatchAnalysis.make,
        Models.AnalysisBreakdown.make, Models.validate_score,
        Models.validate_overall_score]
  · constructor <;>
      norm_num [Models.defaultAnalysisBreakdown, Models.AnalysisBreakdown.make,
        Models.validate_score]

end IntHR




